import Mathlib

/-
Verification development for the TrainingCenterManagementBot repository.

The Python source is shallowly embedded: pure functions become Lean
functions, stateful repository code becomes explicit state passing over
lists of entities / documents, and fallible Python code (exceptions)
returns Except values.  Machine floats of the source (course prices and
payment amounts) are modelled as rationals; Python aware datetimes are
modelled as a wall-clock value in microseconds together with an optional
UTC offset in seconds.
-/

set_option maxHeartbeats 1000000

namespace TCM

/-- Python exceptions that the embedded code can raise.  Each constructor
carries the message text that str(e) would produce (messages are
abstractions of the CPython wording, stable enough for the use cases that
turn exceptions into error strings). -/
inductive PyErr where
  | attributeError (msg : String)
  | typeError (msg : String)
  | valueError (msg : String)
  | keyError (msg : String)
deriving DecidableEq, Repr

/-- The text of str(e) for an embedded exception. -/
def PyErr.str : PyErr → String
  | .attributeError m => m
  | .typeError m => m
  | .valueError m => m
  | .keyError m => m

/-- True when an Except value is a success. -/
def pyIsOk {ε α : Type} : Except ε α → Bool
  | .ok _ => true
  | .error _ => false

/-!  Python datetimes.

A datetime is its wall-clock reading in microseconds since an arbitrary
epoch (calendar fields are a bijective re-encoding of this integer, so
no information is lost) plus, when the value is timezone aware, its UTC
offset in seconds (pytz offsets have second granularity).  -/

/-- Embedded datetime.datetime value. -/
structure PyDt where
  wall : Int
  off : Option Int
deriving DecidableEq, Repr

/-- The UTC instant a datetime denotes, in microseconds.  For a naive
value this is its wall clock, which matches how utctimetuple treats
naive datetimes. -/
def PyDt.instant (d : PyDt) : Int :=
  d.wall - (d.off.getD 0) * 1000000

/-- dt.replace(second=0, microsecond=0): the wall clock is floored to the
whole minute, the tzinfo is kept. -/
def truncMinute (d : PyDt) : PyDt :=
  { wall := d.wall - d.wall % 60000000, off := d.off }

/-- Comparison of two datetimes with Python semantics: aware values are
compared as UTC instants, naive values by wall clock, and mixing the two
raises TypeError. -/
def pyGe (a b : PyDt) : Except PyErr Bool :=
  match a.off, b.off with
  | some oa, some ob => .ok (decide (a.wall - oa * 1000000 ≥ b.wall - ob * 1000000))
  | none, none => .ok (decide (a.wall ≥ b.wall))
  | _, _ => .error (.typeError "cannot compare offset-naive and offset-aware datetimes")

/-- timezone.is_past_or_now: compare now and the scheduled instant after
replacing seconds and microseconds by zero.  The current Syria time is an
explicit parameter of the embedding. -/
def is_past_or_now (now scheduled_dt : PyDt) : Except PyErr Bool :=
  pyGe (truncMinute now) (truncMinute scheduled_dt)

/-- SYRIA_TZ.localize(dt): attach to a naive wall clock the offset the
Damascus rules assign to that wall reading.  The rules themselves are an
arbitrary function parameter of the embedding. -/
def localizeSyria (loc : Int → Int) (d : PyDt) : PyDt :=
  { wall := d.wall, off := some (loc d.wall) }

/-- dt.astimezone(tz) for an aware value: the UTC instant is preserved and
re-read on the target timezone's wall clock.  tzOff maps an instant to the
target offset in seconds.  The embedded conversion functions only apply
this to aware values. -/
def astimezone (tzOff : Int → Int) (d : PyDt) : PyDt :=
  { wall := d.instant + tzOff d.instant * 1000000, off := some (tzOff d.instant) }

/-- timezone.datetime_to_mongodb: a naive value is first localized to
Syria time, then the value is converted to UTC. -/
def datetime_to_mongodb (loc : Int → Int) (d : PyDt) : PyDt :=
  let aware := match d.off with
    | none => localizeSyria loc d
    | some _ => d
  astimezone (fun _ => 0) aware

/-- timezone.datetime_from_mongodb: a naive value is interpreted as UTC,
then the value is converted to Syria time (syOff maps a UTC instant to
the Damascus offset in seconds). -/
def datetime_from_mongodb (syOff : Int → Int) (d : PyDt) : PyDt :=
  let aware : PyDt := match d.off with
    | none => { wall := d.wall, off := some 0 }
    | some _ => d
  astimezone syOff aware

/-- dt.utctimetuple() abstracted as the UTC wall-clock reading truncated
to seconds; the struct_time fields are a bijective re-encoding of this
integer. -/
def utctimetuple (d : PyDt) : Int :=
  d.instant / 1000000

/-- The index of the minute an aware datetime's instant falls in. -/
def minuteIndex (d : PyDt) : Int :=
  d.instant / 60000000

/-!  String helpers: Python str.strip() and the strptime parsers for the
two fixed formats the source uses. -/

/-- The ASCII whitespace characters str.strip() removes (the embedding
restricts Python's Unicode whitespace set to ASCII). -/
def pyWhitespace : List Char := [' ', '\t', '\n', '\r', '\x0b', '\x0c']

/-- str.strip() on a character list. -/
def pyStripList (cs : List Char) : List Char :=
  ((cs.dropWhile (fun c => pyWhitespace.contains c)).reverse.dropWhile
    (fun c => pyWhitespace.contains c)).reverse

/-- str.strip() on a string. -/
def strStrip (s : String) : String :=
  String.mk (pyStripList s.data)

/-- The numeric value of a decimal digit character. -/
def dv (c : Char) : Nat := c.toNat - 48

/-!  CPython strptime compiles each directive to a regular expression and
requires the match to consume the whole input ("unconverted data
remains" otherwise).  The directives used by the source compile to:
  %Y  (\d\d\d\d)
  %m  (1[0-2]|0[1-9]|[1-9])
  %d  (3[01]|[12]\d|0[1-9]|[1-9]| [1-9])
  %H  (2[0-3]|[0-1]\d|\d)
  %M  ([0-5]\d|\d)
Each token below consumes from the front, preferring the longer
alternative exactly as the ordered regex alternation does.  A two-digit
alternative only matches when the second character is a digit, while the
continuation after each token starts with a non-digit (a dash, a colon,
or the end of the input), so the cross-token backtracking of the regex
engine can never turn an overall failure into a success; committing to
the longest alternative is therefore faithful. -/

/-- Token for %Y: exactly four digits. -/
def reYear4 : List Char → Option (Nat × List Char)
  | a :: b :: c :: d :: rest =>
    if a.isDigit && b.isDigit && c.isDigit && d.isDigit then
      some (1000 * dv a + 100 * dv b + 10 * dv c + dv d, rest)
    else none
  | _ => none

/-- Token for %m: two digits giving 1..12, or one digit 1..9. -/
def reMonth : List Char → Option (Nat × List Char)
  | a :: b :: rest =>
    if a.isDigit && b.isDigit && 1 ≤ 10 * dv a + dv b && 10 * dv a + dv b ≤ 12 then
      some (10 * dv a + dv b, rest)
    else if a.isDigit && 1 ≤ dv a then some (dv a, b :: rest)
    else none
  | [a] => if a.isDigit && 1 ≤ dv a then some (dv a, []) else none
  | [] => none

/-- Token for %d: two digits giving 1..31, one digit 1..9, or a blank
followed by a digit 1..9. -/
def reDay : List Char → Option (Nat × List Char)
  | ' ' :: b :: rest =>
    if b.isDigit && 1 ≤ dv b then some (dv b, rest) else none
  | a :: b :: rest =>
    if a.isDigit && b.isDigit && 1 ≤ 10 * dv a + dv b && 10 * dv a + dv b ≤ 31 then
      some (10 * dv a + dv b, rest)
    else if a.isDigit && 1 ≤ dv a then some (dv a, b :: rest)
    else none
  | [a] => if a.isDigit && 1 ≤ dv a then some (dv a, []) else none
  | [] => none

/-- Token for %H: two digits giving 0..23, or one digit. -/
def reHour : List Char → Option (Nat × List Char)
  | a :: b :: rest =>
    if a.isDigit && b.isDigit && 10 * dv a + dv b ≤ 23 then
      some (10 * dv a + dv b, rest)
    else if a.isDigit then some (dv a, b :: rest)
    else none
  | [a] => if a.isDigit then some (dv a, []) else none
  | [] => none

/-- Token for %M: two digits with the first at most 5, or one digit. -/
def reMinute : List Char → Option (Nat × List Char)
  | a :: b :: rest =>
    if a.isDigit && b.isDigit && dv a ≤ 5 then
      some (10 * dv a + dv b, rest)
    else if a.isDigit then some (dv a, b :: rest)
    else none
  | [a] => if a.isDigit then some (dv a, []) else none
  | [] => none

/-- The month-day part of "%Y-%m-%d": month, dash, day, then the rest of
the input must be consumed. -/
def strptimeMD (cs : List Char) : Option (Nat × Nat) :=
  match reMonth cs with
  | none => none
  | some (m, r3) =>
    match r3 with
    | '-' :: r4 =>
      match reDay r4 with
      | none => none
      | some (d, r5) => if r5.isEmpty then some (m, d) else none
    | _ => none

/-- strptime(data, "%Y-%m-%d") regex phase: year, dash, month, dash, day,
then the whole input must be consumed. -/
def strptimeDate (cs : List Char) : Option (Nat × Nat × Nat) :=
  match reYear4 cs with
  | none => none
  | some (y, r1) =>
    match r1 with
    | '-' :: r2 =>
      match strptimeMD r2 with
      | none => none
      | some (m, d) => some (y, m, d)
    | _ => none

/-- strptime(data, "%H:%M") regex phase: hour, colon, minute, then the
whole input must be consumed. -/
def strptimeTime (cs : List Char) : Option (Nat × Nat) :=
  match reHour cs with
  | none => none
  | some (h, r1) =>
    match r1 with
    | ':' :: r2 =>
      match reMinute r2 with
      | none => none
      | some (m, r3) => if r3.isEmpty then some (h, m) else none
    | _ => none

/-- Gregorian leap-year rule used by datetime.date. -/
def isLeapYear (y : Nat) : Bool :=
  y % 4 == 0 && (!(y % 100 == 0) || y % 400 == 0)

/-- Number of days of a month as validated by datetime.date. -/
def daysInMonth (y m : Nat) : Nat :=
  if m == 2 then (if isLeapYear y then 29 else 28)
  else if [4, 6, 9, 11].contains m then 30
  else 31

/-- timezone.parse_date: strip the input, run strptime with "%Y-%m-%d",
then build the date value, which rejects year 0 (MINYEAR is 1) and days
past the end of the month. -/
def parse_date (s : String) : Except PyErr (Nat × Nat × Nat) :=
  match strptimeDate (pyStripList s.data) with
  | none => .error (.valueError "time data does not match format Y-m-d")
  | some (y, m, d) =>
    if y == 0 then .error (.valueError "year 0 is out of range")
    else if d ≤ daysInMonth y m then .ok (y, m, d)
    else .error (.valueError "day is out of range for month")

/-- timezone.parse_time: strip the input, run strptime with "%H:%M"; the
token ranges already guarantee a valid time value. -/
def parse_time (s : String) : Except PyErr (Nat × Nat) :=
  match strptimeTime (pyStripList s.data) with
  | none => .error (.valueError "time data does not match format H:M")
  | some (h, m) => .ok (h, m)

/-!  Specification-side format predicates for claim C10. -/

/-- The format the claim literally states for parse_time: exactly two
digits, a colon, exactly two digits, denoting a valid 24-hour time. -/
def isStrictHHMM (s : String) : Bool :=
  match s.data with
  | [a, b, ':', c, d] =>
    a.isDigit && b.isDigit && c.isDigit && d.isDigit &&
      10 * dv a + dv b ≤ 23 && 10 * dv c + dv d ≤ 59
  | _ => false

/-- Amended acceptance grammar for parse_time, stated by enumerating the
accepted shapes: after stripping surrounding whitespace the input is a
one- or two-digit hour at most 23, a colon, and a one- or two-digit
minute at most 59. -/
def shapeTime : List Char → Bool
  | [a, b, ':', c, d] =>
    a.isDigit && b.isDigit && c.isDigit && d.isDigit &&
      10 * dv a + dv b ≤ 23 && dv c ≤ 5
  | [a, ':', c, d] => a.isDigit && c.isDigit && d.isDigit && dv c ≤ 5
  | [a, b, ':', c] => a.isDigit && b.isDigit && c.isDigit && 10 * dv a + dv b ≤ 23
  | [a, ':', c] => a.isDigit && c.isDigit
  | _ => false

/-- A two-character day group: two digits giving 1..31, or a blank and a
digit 1..9. -/
def dayPair (c d : Char) : Bool :=
  (c.isDigit && d.isDigit && 1 ≤ 10 * dv c + dv d && 10 * dv c + dv d ≤ 31) ||
    (c == ' ' && d.isDigit && 1 ≤ dv d)

/-- The value of a two-character day group. -/
def dayPairVal (c d : Char) : Nat :=
  if c == ' ' then dv d else 10 * dv c + dv d

/-- The month-day shapes of the amended date grammar, relative to a year:
a one- or two-digit month 1..12, a dash, and a day written as one digit
1..9, two digits 1..31, or a blank-padded digit 1..9 that exists in that
month of that year. -/
def shapeMD (y : Nat) : List Char → Bool
  | [a, '-', c] =>
    a.isDigit && 1 ≤ dv a && c.isDigit && 1 ≤ dv c && dv c ≤ daysInMonth y (dv a)
  | [a, b, '-', c] =>
    a.isDigit && b.isDigit && 1 ≤ 10 * dv a + dv b && 10 * dv a + dv b ≤ 12 &&
      c.isDigit && 1 ≤ dv c && dv c ≤ daysInMonth y (10 * dv a + dv b)
  | [a, '-', c, d] =>
    a.isDigit && 1 ≤ dv a && dayPair c d && dayPairVal c d ≤ daysInMonth y (dv a)
  | [a, b, '-', c, d] =>
    a.isDigit && b.isDigit && 1 ≤ 10 * dv a + dv b && 10 * dv a + dv b ≤ 12 &&
      dayPair c d && dayPairVal c d ≤ daysInMonth y (10 * dv a + dv b)
  | _ => false

/-- Amended acceptance grammar for parse_date: after stripping
surrounding whitespace the input is a four-digit year, a dash, and a
month-day group; the year is at least 1 and the day exists in that
month. -/
def shapeDate : List Char → Bool
  | y1 :: y2 :: y3 :: y4 :: '-' :: u =>
    y1.isDigit && y2.isDigit && y3.isDigit && y4.isDigit &&
      1 ≤ 1000 * dv y1 + 100 * dv y2 + 10 * dv y3 + dv y4 &&
      shapeMD (1000 * dv y1 + 100 * dv y2 + 10 * dv y3 + dv y4) u
  | _ => false

/-- Amended grammar for parse_time lifted to strings. -/
def flexTime (s : String) : Bool :=
  shapeTime (pyStripList s.data)

/-- Amended grammar for parse_date lifted to strings. -/
def flexDate (s : String) : Bool :=
  shapeDate (pyStripList s.data)

/-!  Domain entities (domain/entities/models.py). -/

/-- Status of a course. -/
inductive CourseStatus where
  | draft
  | published
  | ongoing
  | completed
  | cancelled
deriving DecidableEq, Repr

/-- Status of a student registration.  The enum has exactly these four
members; in particular there is no CONFIRMED member. -/
inductive RegistrationStatus where
  | pending
  | approved
  | rejected
  | cancelled
deriving DecidableEq, Repr

/-- The string value of a RegistrationStatus member. -/
def RegistrationStatus.value : RegistrationStatus → String
  | .pending => "pending"
  | .approved => "approved"
  | .rejected => "rejected"
  | .cancelled => "cancelled"

/-- Payment status for a registration.  The PARTIAL member is named part
here. -/
inductive PaymentStatus where
  | unpaid
  | part
  | paid
deriving DecidableEq, Repr

/-- Payment method for a payment record. -/
inductive PaymentMethod where
  | cash
  | transfer
  | card
  | other
deriving DecidableEq, Repr

/-- Social media platforms. -/
inductive Platform where
  | facebook
  | instagram
  | both
deriving DecidableEq, Repr

/-- Status of a scheduled post. -/
inductive PostStatus where
  | pending
  | published
  | failed
  | skipped
deriving DecidableEq, Repr

/-- Supported languages. -/
inductive Language where
  | ar
  | en
deriving DecidableEq, Repr

/-- Gender of a student. -/
inductive Gender where
  | male
  | female
deriving DecidableEq, Repr

/-- Education level of a student. -/
inductive EducationLevel where
  | middle_school
  | high_school
  | diploma
  | bachelor
  | master
  | phd
  | other
deriving DecidableEq, Repr

/-- Training course entity. -/
structure Course where
  id : String
  name : String
  description : String
  instructor : String
  start_date : PyDt
  end_date : PyDt
  price : Rat
  max_students : Int
  status : CourseStatus := .draft
  created_at : Option PyDt := none
  updated_at : Option PyDt := none
  materials_folder_id : Option String := none
  target_audience : Option String := none
  duration_hours : Option Int := none
deriving DecidableEq, Repr

/-- Student entity.  The dataclass fields are full_name and phone_number;
there are no name or phone fields. -/
structure Student where
  id : String
  telegram_id : Int
  full_name : String
  phone_number : String
  gender : Gender
  age : Int
  residence : String
  education_level : EducationLevel
  specialization : Option String := none
  profile_completed : Bool := false
  email : Option String := none
  language : Language := .ar
  registered_at : Option PyDt := none
  updated_at : Option PyDt := none
deriving DecidableEq, Repr

/-- Course registration entity.  The dataclass fields include approved_at
and approved_by; there is no confirmed_at field. -/
structure Registration where
  id : String
  student_id : String
  course_id : String
  status : RegistrationStatus := .pending
  payment_status : PaymentStatus := .unpaid
  registered_at : Option PyDt := none
  approved_at : Option PyDt := none
  approved_by : Option Int := none
  notes : Option String := none
deriving DecidableEq, Repr

/-- Registration.create: a fresh pending registration (the generated uuid
is an explicit parameter of the embedding). -/
def Registration.create (newId student_id course_id : String) (now : PyDt) : Registration :=
  { id := newId, student_id := student_id, course_id := course_id,
    registered_at := some now }

/-- Payment record entity. -/
structure PaymentRecord where
  id : String
  registration_id : String
  amount : Rat
  paid_at : PyDt
  method : PaymentMethod
  received_by : Int
  notes : Option String := none
deriving DecidableEq, Repr

/-- PaymentRecord.create with the generated uuid as a parameter. -/
def PaymentRecord.create (newId registration_id : String) (amount : Rat)
    (method : PaymentMethod) (received_by : Int) (now : PyDt)
    (notes : Option String) : PaymentRecord :=
  { id := newId, registration_id := registration_id, amount := amount,
    paid_at := now, method := method, received_by := received_by, notes := notes }

/-- Scheduled social media post entity. -/
structure ScheduledPost where
  id : String
  content : String
  scheduled_datetime : PyDt
  platform : Platform
  status : PostStatus := .pending
  image_url : Option String := none
  published_at : Option PyDt := none
  error_message : Option String := none
  sheet_row_index : Option Int := none
deriving DecidableEq, Repr

/-- post.platform in (p1, p2): tuple membership of the source. -/
def platformIn (p : Platform) (l : List Platform) : Bool :=
  l.contains p

/-- ScheduledPost.requires_image. -/
def ScheduledPost.requires_image (post : ScheduledPost) : Bool :=
  platformIn post.platform [.instagram, .both]

/-- ScheduledPost.can_publish_to_instagram: bool(image_url and
image_url.strip()), i.e. the image url exists and is non-blank. -/
def ScheduledPost.can_publish_to_instagram (post : ScheduledPost) : Bool :=
  match post.image_url with
  | none => false
  | some s => !(strStrip s).isEmpty

/-- ScheduledPost.validate_for_instagram: an error message for Instagram
or Both posts without a usable image, none otherwise. -/
def ScheduledPost.validate_for_instagram (post : ScheduledPost) : Option String :=
  if platformIn post.platform [.instagram, .both] &&
      !post.can_publish_to_instagram then
    some "Instagram posts require a valid image_url"
  else none

/-!  Meta Graph adapter results and PublishPostUseCase
(application/use_cases/use_cases.py).  The adapter itself performs HTTP
calls and always returns a PublishResult; the responses the adapter
would return are parameters of the embedding, and the embedded use case
additionally reports which adapter calls were executed. -/

/-- Result of one platform publish call. -/
structure PublishResult where
  success : Bool
  post_id : Option String := none
  error : Option String := none
deriving DecidableEq, Repr

/-- Result of PublishPostUseCase.execute. -/
structure PublishPostResult where
  success : Bool
  facebook_result : Option PublishResult := none
  instagram_result : Option PublishResult := none
  error : Option String := none
  skipped_instagram : Bool := false
deriving DecidableEq, Repr

/-- The body of PublishPostUseCase.execute after the Instagram-only early
return: call Facebook for facebook/both, call Instagram for
instagram/both with a usable image, then combine the successes exactly
as the source does.  Returns the result plus whether the Facebook and
Instagram adapter calls were executed. -/
def publishPostCore (post : ScheduledPost) (fbResp igResp : PublishResult) :
    PublishPostResult × Bool × Bool :=
  let fb : Option PublishResult :=
    if platformIn post.platform [.facebook, .both] then some fbResp else none
  let ig : Option PublishResult :=
    if platformIn post.platform [.instagram, .both] &&
        post.can_publish_to_instagram then some igResp else none
  let success : Bool :=
    match post.platform with
    | .facebook => match fb with | some r => r.success | none => false
    | .instagram => match ig with | some r => r.success | none => false
    | .both =>
      (match fb with | some r => r.success | none => false) &&
        (match ig with
         | some r => if post.can_publish_to_instagram then r.success else true
         | none => true)
  ({ success := success, facebook_result := fb, instagram_result := ig,
     error := none,
     skipped_instagram := !post.can_publish_to_instagram &&
       platformIn post.platform [.instagram, .both] },
   fb.isSome, ig.isSome)

/-- PublishPostUseCase.execute: validate the post for Instagram; an
Instagram-only post without a usable image returns immediately with no
adapter call; a Both post without a usable image only logs a warning and
continues. -/
def PublishPostUseCase.execute (post : ScheduledPost) (fbResp igResp : PublishResult) :
    PublishPostResult × Bool × Bool :=
  match post.validate_for_instagram with
  | some verr =>
    if post.platform == .instagram then
      ({ success := false, facebook_result := none, instagram_result := none,
         error := some verr, skipped_instagram := true }, false, false)
    else
      publishPostCore post fbResp igResp
  | none => publishPostCore post fbResp igResp

/-!  Specification-side publish policy for claim C4, written from the
claim's words. -/

/-- The claim's success policy: Facebook posts succeed iff Facebook
succeeded; Instagram posts with a valid image succeed iff Instagram
succeeded and fail otherwise; Both posts succeed iff Facebook succeeded
and, when a valid image exists, Instagram succeeded too. -/
def specPublishSuccess (post : ScheduledPost) (fbResp igResp : PublishResult) : Bool :=
  match post.platform with
  | .facebook => fbResp.success
  | .instagram => if post.can_publish_to_instagram then igResp.success else false
  | .both =>
    if post.can_publish_to_instagram then fbResp.success && igResp.success
    else fbResp.success

/-- The claim's skipped_instagram flag: set exactly for Instagram or Both
posts without a valid image. -/
def specSkippedInstagram (post : ScheduledPost) : Bool :=
  match post.platform with
  | .facebook => false
  | _ => !post.can_publish_to_instagram

/-- The claim's Facebook attempt policy: Facebook is called exactly for
Facebook and Both posts. -/
def specFacebookAttempted (post : ScheduledPost) : Bool :=
  match post.platform with
  | .facebook => true
  | .both => true
  | .instagram => false

/-- The claim's Instagram attempt policy: Instagram is called exactly for
Instagram and Both posts with a valid image. -/
def specInstagramAttempted (post : ScheduledPost) : Bool :=
  platformIn post.platform [.instagram, .both] && post.can_publish_to_instagram

/-!  In-memory repository state.

The use cases are written against the repository interfaces
(domain/repositories/interfaces.py) with dependency injection.  The
in-memory state below interprets those interfaces with their documented
contract: lookups are list searches and save is the replace-one-or-insert
upsert of the repository layer.  The defects of the concrete MongoDB
implementations are modelled separately further down. -/

/-- replace_one(filter by key, doc, upsert=True): replace the first
element with the same key, else append. -/
def pyUpsert {α : Type} (key : α → String) : List α → α → List α
  | [], r => [r]
  | x :: xs, r => if key x == key r then r :: xs else x :: pyUpsert key xs r

/-- Persistent state seen through the repository interfaces. -/
structure St where
  students : List Student
  registrations : List Registration
  courses : List Course
  payments : List PaymentRecord
deriving DecidableEq, Repr

/-- ICourseRepository.get_by_id. -/
def findCourse (courses : List Course) (course_id : String) : Option Course :=
  courses.find? (fun c => c.id == course_id)

/-- IStudentRepository.get_by_telegram_id. -/
def getStudentByTelegram (st : St) (telegram_id : Int) : Option Student :=
  st.students.find? (fun s => s.telegram_id == telegram_id)

/-- IRegistrationRepository.get_by_id. -/
def getRegistration (st : St) (registration_id : String) : Option Registration :=
  st.registrations.find? (fun r => r.id == registration_id)

/-- IRegistrationRepository.get_by_student_and_course. -/
def getRegByStudentAndCourse (st : St) (student_id course_id : String) :
    Option Registration :=
  st.registrations.find? (fun r =>
    r.student_id == student_id && r.course_id == course_id)

/-- IRegistrationRepository.count_by_course interpreted with its interface
contract (count registrations for a course); the MongoDB implementation
of this method is modelled separately because it raises. -/
def countByCourse (st : St) (course_id : String) : Nat :=
  (st.registrations.filter (fun r => r.course_id == course_id)).length

/-- IPaymentRecordRepository.get_total_paid.

Modelled from the spec: MongoDBPaymentRecordRepository is imported by
infrastructure/repositories/__init__.py but its definition is absent from
src, so the method is modelled from the interface documentation and the
spec sentence that the total paid for a registration is the sum of its
payment records. -/
def get_total_paid (payments : List PaymentRecord) (registration_id : String) : Rat :=
  ((payments.filter (fun p => p.registration_id == registration_id)).map
    (fun p => p.amount)).sum

/-!  Python call semantics of Student.create at the two registration call
sites.  Student.create takes telegram_id, full_name, phone_number,
gender, age, residence, education_level and now as parameters without
defaults; both call sites pass only a subset, so CPython raises
TypeError before the factory body runs. -/

/-- The parameters of Student.create that have no default value. -/
def studentCreateRequiredParams : List String :=
  ["telegram_id", "full_name", "phone_number", "gender", "age", "residence",
   "education_level", "now"]

/-- Keyword arguments passed to Student.create by
RegisterStudentUseCase.execute (use_cases.py). -/
def registerStudentCreateKwargs : List String :=
  ["telegram_id", "full_name", "phone_number", "now", "email"]

/-- Keyword arguments passed to Student.create by
RequestRegistrationUseCase.execute (registration_use_cases.py). -/
def requestRegistrationCreateKwargs : List String :=
  ["telegram_id", "full_name", "phone_number", "now"]

/-- The required parameters a call leaves unbound. -/
def missingRequired (provided : List String) : List String :=
  studentCreateRequiredParams.filter (fun p => !(provided.contains p))

/-- The TypeError message for a call with missing required arguments. -/
def missingArgsMsg (ms : List String) : String :=
  "Student.create() missing " ++ toString ms.length ++
    " required positional arguments: " ++ String.intercalate ", " ms

/-!  RequestRegistrationUseCase (registration_use_cases.py), interpreted
over the in-memory repository state.  The whole body runs under
try/except Exception, which turns a raised exception e into a returned
failure with error str(e). -/

/-- Result of a registration request. -/
structure RegistrationRequestResult where
  success : Bool
  registration : Option Registration := none
  student : Option Student := none
  error : Option String := none
deriving DecidableEq, Repr

/-- The tail of RequestRegistrationUseCase.execute once the student is
known: duplicate check, capacity check, then create and save the pending
registration. -/
def requestRegistrationTail (st : St) (student : Student) (course : Course)
    (course_id : String) (now : PyDt) (newRegId : String) :
    RegistrationRequestResult × St :=
  match getRegByStudentAndCourse st student.id course_id with
  | some _ =>
    ({ success := false, error := some "Already registered for this course" }, st)
  | none =>
    let count := countByCourse st course_id
    if (count : Int) ≥ course.max_students then
      ({ success := false, error := some "Course is full" }, st)
    else
      let registration := Registration.create newRegId student.id course_id now
      ({ success := true, registration := some registration, student := some student },
       { st with registrations := pyUpsert Registration.id st.registrations registration })

/-- RequestRegistrationUseCase.execute: validate the course, load or
create the student (the create call raises TypeError, which the except
block converts into a failure result), then run the duplicate, capacity
and save steps. -/
def RequestRegistrationUseCase.execute (st : St) (telegram_id : Int)
    (full_name phone_number course_id : String) (now : PyDt)
    (newRegId : String) : RegistrationRequestResult × St :=
  match findCourse st.courses course_id with
  | none => ({ success := false, error := some "Course not found" }, st)
  | some course =>
    match getStudentByTelegram st telegram_id with
    | some s0 =>
      let student := { s0 with full_name := full_name, phone_number := phone_number }
      let st1 := { st with students := pyUpsert Student.id st.students student }
      requestRegistrationTail st1 student course course_id now newRegId
    | none =>
      ({ success := false,
         error := some (missingArgsMsg (missingRequired requestRegistrationCreateKwargs)) },
       st)

/-!  RegisterStudentUseCase (use_cases.py), interpreted over the
in-memory repository state.  This variant has no try/except, so the
TypeError raised by its Student.create call propagates; the embedding
also records which repository steps were reached. -/

/-- Repository/factory steps of RegisterStudentUseCase.execute. -/
inductive RepoOp where
  | getStudent
  | studentCreateAttempt
  | saveStudent
  | getCourse
  | getDup
  | countCourse
  | saveReg
deriving DecidableEq, Repr

/-- Result of a registration attempt. -/
structure RegistrationResult where
  success : Bool
  registration : Option Registration := none
  error : Option String := none
deriving DecidableEq, Repr

/-- RegisterStudentUseCase.execute: load the student (creating one first
raises TypeError because gender, age, residence and education_level are
not passed), then check course existence and availability, the duplicate
pair, the capacity ceiling, and finally save the new registration. -/
def RegisterStudentUseCase.execute (st : St) (telegram_id : Int)
    (name course_id : String) (phone email : Option String) (now : PyDt)
    (newRegId : String) :
    List RepoOp × Except PyErr (RegistrationResult × St) :=
  match getStudentByTelegram st telegram_id with
  | none =>
    ([.getStudent, .studentCreateAttempt],
     .error (.typeError (missingArgsMsg (missingRequired registerStudentCreateKwargs))))
  | some student =>
    match findCourse st.courses course_id with
    | none =>
      ([.getStudent, .getCourse],
       .ok ({ success := false, error := some "Course not found" }, st))
    | some course =>
      if !(course.status == .published || course.status == .ongoing) then
        ([.getStudent, .getCourse],
         .ok ({ success := false,
                error := some "Course is not available for registration" }, st))
      else
        match getRegByStudentAndCourse st student.id course_id with
        | some _ =>
          ([.getStudent, .getCourse, .getDup],
           .ok ({ success := false,
                  error := some "Already registered for this course" }, st))
        | none =>
          let count := countByCourse st course_id
          if (count : Int) ≥ course.max_students then
            ([.getStudent, .getCourse, .getDup, .countCourse],
             .ok ({ success := false, error := some "Course is full" }, st))
          else
            let registration := Registration.create newRegId student.id course_id now
            ([.getStudent, .getCourse, .getDup, .countCourse, .saveReg],
             .ok ({ success := true, registration := some registration },
                  { st with registrations :=
                      pyUpsert Registration.id st.registrations registration }))

/-- The registrations stored after a RegisterStudentUseCase.execute run:
when the use case raises, nothing was written before the raise, so the
input state stands. -/
def registerStudentFinalRegs (st : St) (telegram_id : Int)
    (name course_id : String) (phone email : Option String) (now : PyDt)
    (newRegId : String) : List Registration :=
  match (RegisterStudentUseCase.execute st telegram_id name course_id phone email
      now newRegId).2 with
  | .ok (_, st2) => st2.registrations
  | .error _ => st.registrations

/-- At most one Registration per (student_id, course_id) pair. -/
def PairUnique (regs : List Registration) : Prop :=
  regs.Pairwise (fun a b =>
    ¬(a.student_id = b.student_id ∧ a.course_id = b.course_id))

/-!  AddPaymentUseCase (registration_use_cases.py). -/

/-- Result of a payment operation. -/
structure PaymentResult where
  success : Bool
  payment : Option PaymentRecord := none
  total_paid : Rat := 0
  error : Option String := none
deriving DecidableEq, Repr

/-- AddPaymentUseCase.execute: validate the approved registration and its
course, save the payment record, recompute the total paid as the sum of
the registration's records, and raise the payment status to PAID or
PARTIAL accordingly (an unchanged total of zero leaves the status as it
was). -/
def AddPaymentUseCase.execute (st : St) (registration_id : String) (amount : Rat)
    (method : PaymentMethod) (admin_telegram_id : Int) (notes : Option String)
    (now : PyDt) (newPaymentId : String) : PaymentResult × St :=
  match getRegistration st registration_id with
  | none => ({ success := false, error := some "Registration not found" }, st)
  | some registration =>
    if !(registration.status == .approved) then
      ({ success := false,
         error := some "Can only add payments to approved registrations" }, st)
    else
      match findCourse st.courses registration.course_id with
      | none => ({ success := false, error := some "Course not found" }, st)
      | some course =>
        let payment := PaymentRecord.create newPaymentId registration_id amount
          method admin_telegram_id now notes
        let payments2 := pyUpsert PaymentRecord.id st.payments payment
        let total_paid := get_total_paid payments2 registration_id
        let registration2 :=
          if total_paid ≥ course.price then
            { registration with payment_status := .paid }
          else if total_paid > 0 then
            { registration with payment_status := .part }
          else registration
        ({ success := true, payment := some payment, total_paid := total_paid },
         { st with payments := payments2,
                   registrations :=
                     pyUpsert Registration.id st.registrations registration2 })

/-!  MongoDB documents
(infrastructure/repositories/mongodb_repositories.py).

A stored document is a list of key/value pairs; values carry the small
universe of Python values the repositories store.  Attribute access on an
entity and keyword calls of a dataclass are modelled explicitly so that
accesses to fields that do not exist raise as they do in Python. -/

/-- A Python value stored in a document or read from an attribute. -/
inductive PyVal where
  | vStr (s : String)
  | vInt (n : Int)
  | vDt (d : PyDt)
  | vBool (b : Bool)
  | vNone
deriving DecidableEq, Repr

/-- Python truthiness of a stored value. -/
def pyTruthy : PyVal → Bool
  | .vStr s => !s.isEmpty
  | .vInt n => !(n == 0)
  | .vDt _ => true
  | .vBool b => b
  | .vNone => false

/-- A MongoDB document. -/
abbrev Doc := List (String × PyVal)

/-- doc.get(k): the first value stored under the key. -/
def docGet (doc : Doc) (k : String) : Option PyVal :=
  (doc.find? (fun kv => kv.1 == k)).map (fun kv => kv.2)

/-- doc[k]: like doc.get(k) but raising KeyError when the key is absent. -/
def dictItem (doc : Doc) (k : String) : Except PyErr PyVal :=
  match docGet doc k with
  | some v => .ok v
  | none => .error (.keyError k)

/-- find_one by one key. -/
def findDocBy (docs : List Doc) (k : String) (v : PyVal) : Option Doc :=
  docs.find? (fun d => docGet d k == some v)

/-- replace_one({_id: idv}, d, upsert=True) over a document list. -/
def upsertDocById : List Doc → PyVal → Doc → List Doc
  | [], _, d => [d]
  | x :: xs, idv, d =>
    if docGet x "_id" == some idv then d :: xs else x :: upsertDocById xs idv d

/-- The string value of a PaymentStatus member. -/
def PaymentStatus.value : PaymentStatus → String
  | .unpaid => "unpaid"
  | .part => "partial"
  | .paid => "paid"

/-- The string value of a Language member. -/
def Language.value : Language → String
  | .ar => "ar"
  | .en => "en"

/-- Language(value): the enum call, raising ValueError on an unknown
value. -/
def Language.ofValue (s : String) : Except PyErr Language :=
  match s with
  | "ar" => .ok .ar
  | "en" => .ok .en
  | _ => .error (.valueError "not a valid Language")

/-- RegistrationStatus(value): the enum call, raising ValueError on an
unknown value. -/
def RegistrationStatus.ofValue (s : String) : Except PyErr RegistrationStatus :=
  match s with
  | "pending" => .ok .pending
  | "approved" => .ok .approved
  | "rejected" => .ok .rejected
  | "cancelled" => .ok .cancelled
  | _ => .error (.valueError "not a valid RegistrationStatus")

/-- RegistrationStatus.NAME: enum member access by name, raising
AttributeError for a name that is not a member; the enum defines
PENDING, APPROVED, REJECTED and CANCELLED only. -/
def RegistrationStatus.pyMember (a : String) : Except PyErr RegistrationStatus :=
  match a with
  | "PENDING" => .ok .pending
  | "APPROVED" => .ok .approved
  | "REJECTED" => .ok .rejected
  | "CANCELLED" => .ok .cancelled
  | other => .error (.attributeError other)

/-- getattr on a Registration entity: the dataclass fields, with an
AttributeError for anything else (enum-valued fields are read through
their string value). -/
def Registration.pyGetAttr (r : Registration) (a : String) : Except PyErr PyVal :=
  match a with
  | "id" => .ok (.vStr r.id)
  | "student_id" => .ok (.vStr r.student_id)
  | "course_id" => .ok (.vStr r.course_id)
  | "status" => .ok (.vStr r.status.value)
  | "payment_status" => .ok (.vStr r.payment_status.value)
  | "registered_at" =>
    .ok (match r.registered_at with | some d => .vDt d | none => .vNone)
  | "approved_at" =>
    .ok (match r.approved_at with | some d => .vDt d | none => .vNone)
  | "approved_by" =>
    .ok (match r.approved_by with | some n => .vInt n | none => .vNone)
  | "notes" =>
    .ok (match r.notes with | some s => .vStr s | none => .vNone)
  | other => .error (.attributeError ("Registration object has no attribute " ++ other))

/-- getattr on a Student entity: the dataclass fields (full_name,
phone_number, ...), with an AttributeError for anything else; in
particular there are no name and phone attributes. -/
def Student.pyGetAttr (s : Student) (a : String) : Except PyErr PyVal :=
  match a with
  | "id" => .ok (.vStr s.id)
  | "telegram_id" => .ok (.vInt s.telegram_id)
  | "full_name" => .ok (.vStr s.full_name)
  | "phone_number" => .ok (.vStr s.phone_number)
  | "residence" => .ok (.vStr s.residence)
  | "age" => .ok (.vInt s.age)
  | "profile_completed" => .ok (.vBool s.profile_completed)
  | "email" => .ok (match s.email with | some e => .vStr e | none => .vNone)
  | "specialization" =>
    .ok (match s.specialization with | some v => .vStr v | none => .vNone)
  | "language" => .ok (.vStr s.language.value)
  | "registered_at" =>
    .ok (match s.registered_at with | some d => .vDt d | none => .vNone)
  | "updated_at" =>
    .ok (match s.updated_at with | some d => .vDt d | none => .vNone)
  | other => .error (.attributeError ("Student object has no attribute " ++ other))

/-- The expression pattern datetime_to_mongodb(x) if x else None used by
every _to_document. -/
def dtFieldToMongo (loc : Int → Int) (v : PyVal) : Except PyErr PyVal :=
  if pyTruthy v then
    match v with
    | .vDt d => .ok (.vDt (datetime_to_mongodb loc d))
    | _ => .error (.typeError "expected a datetime")
  else .ok .vNone

/-- The expression pattern datetime_from_mongodb(doc[k]) if doc.get(k)
else None used by every _from_document. -/
def dtFieldFromMongo (syOff : Int → Int) (ov : Option PyVal) : Except PyErr PyVal :=
  match ov with
  | some v =>
    if pyTruthy v then
      match v with
      | .vDt d => .ok (.vDt (datetime_from_mongodb syOff d))
      | _ => .error (.typeError "expected a datetime")
    else .ok .vNone
  | none => .ok .vNone

/-- The keys of the document literal built by
MongoDBRegistrationRepository._to_document, in source order. -/
def registrationDocumentKeys : List String :=
  ["_id", "student_id", "course_id", "status", "registered_at", "confirmed_at"]

/-- MongoDBRegistrationRepository._to_document: the dict literal's values
are evaluated in key order; the value for the confirmed_at key reads
registration.confirmed_at, an attribute the Registration dataclass does
not define, so the access raises before the document exists. -/
def MongoDBRegistrationRepository.to_document (loc : Int → Int) (r : Registration) :
    Except PyErr Doc := do
  let v_id ← r.pyGetAttr "id"
  let v_sid ← r.pyGetAttr "student_id"
  let v_cid ← r.pyGetAttr "course_id"
  let v_status ← r.pyGetAttr "status"
  let v_ra0 ← r.pyGetAttr "registered_at"
  let v_ra ← dtFieldToMongo loc v_ra0
  let v_ca0 ← r.pyGetAttr "confirmed_at"
  let v_ca ← dtFieldToMongo loc v_ca0
  .ok [("_id", v_id), ("student_id", v_sid), ("course_id", v_cid),
       ("status", v_status), ("registered_at", v_ra), ("confirmed_at", v_ca)]

/-- The parameters accepted by the Registration dataclass. -/
def Registration.ctorParams : List String :=
  ["id", "student_id", "course_id", "status", "payment_status",
   "registered_at", "approved_at", "approved_by", "notes"]

/-- The keyword arguments MongoDBRegistrationRepository._from_document
passes to Registration. -/
def registrationFromDocumentKwargs : List String :=
  ["id", "student_id", "course_id", "status", "registered_at", "confirmed_at"]

/-- Coercion of a stored value for the statically dead construction
branches; the dataclasses perform no type validation, so a default only
stands in for an ill-typed stored value. -/
def asStr : PyVal → String
  | .vStr s => s
  | _ => ""

/-- Integer coercion for the statically dead construction branches. -/
def asInt : PyVal → Int
  | .vInt n => n
  | _ => 0

/-- Datetime coercion for the statically dead construction branches. -/
def asDtOpt : PyVal → Option PyDt
  | .vDt d => some d
  | _ => none

/-- RegistrationStatus(doc value): the enum call made on a stored value,
raising ValueError when the value is not a member value. -/
def registrationDocStatus (v : PyVal) : Except PyErr RegistrationStatus :=
  match v with
  | .vStr s => RegistrationStatus.ofValue s
  | _ => .error (.valueError "not a valid RegistrationStatus")

/-- MongoDBRegistrationRepository._from_document: the argument
expressions are evaluated first (indexing can raise KeyError, the enum
call can raise ValueError), then the Registration(...) call is made with
a confirmed_at keyword the dataclass does not accept, raising
TypeError. -/
def MongoDBRegistrationRepository.from_document (syOff : Int → Int) (doc : Doc) :
    Except PyErr Registration := do
  let v_id ← dictItem doc "_id"
  let v_sid ← dictItem doc "student_id"
  let v_cid ← dictItem doc "course_id"
  let v_statusRaw ← dictItem doc "status"
  let status ← registrationDocStatus v_statusRaw
  let v_ra ← dtFieldFromMongo syOff (docGet doc "registered_at")
  let _v_ca ← dtFieldFromMongo syOff (docGet doc "confirmed_at")
  match registrationFromDocumentKwargs.filter
      (fun k => !(Registration.ctorParams.contains k)) with
  | [] =>
    -- statically dead: the filter above evaluates to [confirmed_at]
    .ok { id := asStr v_id, student_id := asStr v_sid, course_id := asStr v_cid,
          status := status, registered_at := asDtOpt v_ra }
  | bad =>
    .error (.typeError ("Registration got an unexpected keyword argument " ++
      String.intercalate ", " bad))

/-- MongoDBRegistrationRepository.save: build the document, then
replace_one by _id with upsert.  The document build raises, so nothing
is ever written. -/
def MongoDBRegistrationRepository.save (loc : Int → Int) (docs : List Doc)
    (r : Registration) : Except PyErr (List Doc) := do
  let d ← MongoDBRegistrationRepository.to_document loc r
  .ok (upsertDocById docs (.vStr r.id) d)

/-- MongoDBRegistrationRepository.get_by_id. -/
def MongoDBRegistrationRepository.get_by_id (syOff : Int → Int) (docs : List Doc)
    (registration_id : String) : Except PyErr (Option Registration) :=
  match findDocBy docs "_id" (.vStr registration_id) with
  | none => .ok none
  | some d => (MongoDBRegistrationRepository.from_document syOff d).map some

/-- MongoDBRegistrationRepository.get_by_student_and_course. -/
def MongoDBRegistrationRepository.get_by_student_and_course (syOff : Int → Int)
    (docs : List Doc) (student_id course_id : String) :
    Except PyErr (Option Registration) :=
  match docs.find? (fun d =>
      docGet d "student_id" == some (.vStr student_id) &&
        docGet d "course_id" == some (.vStr course_id)) with
  | none => .ok none
  | some d => (MongoDBRegistrationRepository.from_document syOff d).map some

/-- MongoDBRegistrationRepository.count_by_course: the status filter
evaluates RegistrationStatus.PENDING.value and then
RegistrationStatus.CONFIRMED.value; the second access raises
AttributeError because the enum has no CONFIRMED member. -/
def MongoDBRegistrationRepository.count_by_course (docs : List Doc)
    (course_id : String) : Except PyErr Nat := do
  let p ← RegistrationStatus.pyMember "PENDING"
  let c ← RegistrationStatus.pyMember "CONFIRMED"
  .ok ((docs.filter (fun d =>
    docGet d "course_id" == some (.vStr course_id) &&
      (docGet d "status" == some (.vStr p.value) ||
        docGet d "status" == some (.vStr c.value)))).length)

/-- The parameters accepted by the Student dataclass. -/
def Student.ctorParams : List String :=
  ["id", "telegram_id", "full_name", "phone_number", "gender", "age",
   "residence", "education_level", "specialization", "profile_completed",
   "email", "language", "registered_at", "updated_at"]

/-- The keyword arguments MongoDBStudentRepository._from_document passes
to Student. -/
def studentFromDocumentKwargs : List String :=
  ["id", "telegram_id", "name", "phone", "email", "language", "registered_at"]

/-- MongoDBStudentRepository._to_document: the dict literal reads
student.name as its third value, an attribute the Student dataclass does
not define (the field is full_name), so the access raises. -/
def MongoDBStudentRepository.to_document (loc : Int → Int) (s : Student) :
    Except PyErr Doc := do
  let v_id ← s.pyGetAttr "id"
  let v_tid ← s.pyGetAttr "telegram_id"
  let v_name ← s.pyGetAttr "name"
  let v_phone ← s.pyGetAttr "phone"
  let v_email ← s.pyGetAttr "email"
  let v_lang ← s.pyGetAttr "language"
  let v_ra0 ← s.pyGetAttr "registered_at"
  let v_ra ← dtFieldToMongo loc v_ra0
  .ok [("_id", v_id), ("telegram_id", v_tid), ("name", v_name),
       ("phone", v_phone), ("email", v_email), ("language", v_lang),
       ("registered_at", v_ra)]

/-- Language(doc.get(language, ar)): the enum call made on the stored
value with its default. -/
def studentDocLanguage (o : Option PyVal) : Except PyErr Language :=
  match o with
  | some (.vStr s) => Language.ofValue s
  | none => Language.ofValue "ar"
  | some _ => .error (.valueError "not a valid Language")

/-- MongoDBStudentRepository._from_document: the argument expressions are
evaluated first (the doc.get reads of phone and email cannot raise and
only feed the statically dead construction branch), then the Student(...)
call is made with name and phone keywords the dataclass does not accept,
raising TypeError. -/
def MongoDBStudentRepository.from_document (syOff : Int → Int) (doc : Doc) :
    Except PyErr Student := do
  let v_id ← dictItem doc "_id"
  let v_tid ← dictItem doc "telegram_id"
  let _v_name ← dictItem doc "name"
  let lang ← studentDocLanguage (docGet doc "language")
  let v_ra ← dtFieldFromMongo syOff (docGet doc "registered_at")
  match studentFromDocumentKwargs.filter
      (fun k => !(Student.ctorParams.contains k)) with
  | [] =>
    -- statically dead: the filter above evaluates to [name, phone]
    .ok { id := asStr v_id, telegram_id := asInt v_tid, full_name := "",
          phone_number := "", gender := .male, age := 0, residence := "",
          education_level := .other, language := lang,
          registered_at := asDtOpt v_ra }
  | bad =>
    .error (.typeError ("Student got an unexpected keyword argument " ++
      String.intercalate ", " bad))

/-- MongoDBStudentRepository.get_by_telegram_id. -/
def MongoDBStudentRepository.get_by_telegram_id (syOff : Int → Int)
    (docs : List Doc) (telegram_id : Int) : Except PyErr (Option Student) :=
  match findDocBy docs "telegram_id" (.vInt telegram_id) with
  | none => .ok none
  | some d => (MongoDBStudentRepository.from_document syOff d).map some

/-- MongoDBStudentRepository.save. -/
def MongoDBStudentRepository.save (loc : Int → Int) (docs : List Doc)
    (s : Student) : Except PyErr (List Doc) := do
  let d ← MongoDBStudentRepository.to_document loc s
  .ok (upsertDocById docs (.vStr s.id) d)

/-!  RequestRegistrationUseCase wired to the MongoDB repositories, as the
repository package composes them.  MongoDBCourseRepository maps every
Course field one to one, so the course lookup is embedded at entity
level; the student and registration repositories are the document-level
models above. -/

/-- State of the MongoDB-backed repositories. -/
structure MongoSt where
  courses : List Course
  studentDocs : List Doc
  registrationDocs : List Doc

/-- The tail of the wired RequestRegistrationUseCase.execute after the
student was loaded and saved: duplicate check, capacity check, save. -/
def requestRegistrationMongoTail (loc syOff : Int → Int) (st : MongoSt)
    (student : Student) (course : Course) (course_id : String) (now : PyDt)
    (newRegId : String) : RegistrationRequestResult × MongoSt :=
  match MongoDBRegistrationRepository.get_by_student_and_course syOff
      st.registrationDocs student.id course_id with
  | .error e => ({ success := false, error := some e.str }, st)
  | .ok (some _) =>
    ({ success := false, error := some "Already registered for this course" }, st)
  | .ok none =>
    match MongoDBRegistrationRepository.count_by_course st.registrationDocs
        course_id with
    | .error e => ({ success := false, error := some e.str }, st)
    | .ok count =>
      if (count : Int) ≥ course.max_students then
        ({ success := false, error := some "Course is full" }, st)
      else
        let registration := Registration.create newRegId student.id course_id now
        match MongoDBRegistrationRepository.save loc st.registrationDocs
            registration with
        | .error e => ({ success := false, error := some e.str }, st)
        | .ok rdocs2 =>
          ({ success := true, registration := some registration,
             student := some student },
           { st with registrationDocs := rdocs2 })

/-- RequestRegistrationUseCase.execute wired to the MongoDB repositories;
the try/except of the use case turns every raised exception e into a
failure result with error str(e). -/
def requestRegistrationMongo (loc syOff : Int → Int) (st : MongoSt)
    (telegram_id : Int) (full_name phone_number course_id : String) (now : PyDt)
    (newRegId : String) : RegistrationRequestResult × MongoSt :=
  match findCourse st.courses course_id with
  | none => ({ success := false, error := some "Course not found" }, st)
  | some course =>
    match MongoDBStudentRepository.get_by_telegram_id syOff st.studentDocs
        telegram_id with
    | .error e => ({ success := false, error := some e.str }, st)
    | .ok none =>
      ({ success := false,
         error := some (missingArgsMsg (missingRequired requestRegistrationCreateKwargs)) },
       st)
    | .ok (some s0) =>
      let student := { s0 with full_name := full_name, phone_number := phone_number }
      match MongoDBStudentRepository.save loc st.studentDocs student with
      | .error e => ({ success := false, error := some e.str }, st)
      | .ok sdocs2 =>
        requestRegistrationMongoTail loc syOff { st with studentDocs := sdocs2 }
          student course course_id now newRegId

/-!  CheckAndPublishPostsUseCase (use_cases.py).  The Google Sheets
adapter responses, the Meta adapter responses and whether each sheet
write-back raises are parameters of the embedding; the error callback is
modelled as a report list, and the poll additionally records which posts
were handed to the publish use case. -/

/-- One poll's external behavior. -/
structure PollEnv where
  fetch : Except String (List ScheduledPost)
  fb : ScheduledPost → PublishResult
  ig : ScheduledPost → PublishResult
  markOk : Option Int → Bool
  noteOk : Option Int → Bool
  now : PyDt

/-- Observable outcome of one poll: the returned count, the posts handed
to the publish use case (in order), and the messages reported through
the error callback. -/
structure PollTrace where
  count : Nat
  attempts : List String
  reports : List String
deriving DecidableEq, Repr

/-- result.error or "Unknown error" (an empty string is falsy). -/
def errorOrUnknown : Option String → String
  | some s => if s.isEmpty then "Unknown error" else s
  | none => "Unknown error"

/-- The post loop of CheckAndPublishPostsUseCase.execute: skip posts that
are not due; publish the rest; on success mark the sheet row (the mark
call may raise, which is caught and the count simply not incremented);
on failure append an error note (a raise there is caught and ignored)
and report the failure. -/
def pollLoop (env : PollEnv) : List ScheduledPost → PollTrace → Except PyErr PollTrace
  | [], acc => .ok acc
  | post :: rest, acc =>
    match is_past_or_now env.now post.scheduled_datetime with
    | .error e => .error e
    | .ok due =>
      if !due then pollLoop env rest acc
      else
        let result := (PublishPostUseCase.execute post (env.fb post) (env.ig post)).1
        let acc1 := { acc with attempts := acc.attempts ++ [post.id] }
        if result.success then
          if env.markOk post.sheet_row_index then
            pollLoop env rest { acc1 with count := acc1.count + 1 }
          else
            pollLoop env rest acc1
        else
          let msg := errorOrUnknown result.error
          pollLoop env rest
            { acc1 with reports :=
                acc1.reports ++ ["Failed to publish post: " ++ msg] }

/-- CheckAndPublishPostsUseCase.execute: a raise while fetching the posts
aborts the poll, reports once and returns 0; otherwise run the loop. -/
def CheckAndPublishPostsUseCase.execute (env : PollEnv) : Except PyErr PollTrace :=
  match env.fetch with
  | .error e =>
    .ok { count := 0, attempts := [],
          reports := ["Failed to fetch posts from Google Sheets: " ++ e] }
  | .ok posts => pollLoop env posts { count := 0, attempts := [], reports := [] }

/-- Whether a post is due at the given now (false when the comparison
would raise). -/
def dueBool (now : PyDt) (p : ScheduledPost) : Bool :=
  match is_past_or_now now p.scheduled_datetime with
  | .ok b => b
  | .error _ => false

/-- Whether the publish use case reports success for a post under the
poll's adapter responses. -/
def postPublishSuccess (env : PollEnv) (p : ScheduledPost) : Bool :=
  (PublishPostUseCase.execute p (env.fb p) (env.ig p)).1.success

/-- From the claim's words: the number of posts successfully published in
the poll, i.e. the due posts whose publish succeeded. -/
def specSuccessfullyPublished (env : PollEnv) : Nat :=
  match env.fetch with
  | .error _ => 0
  | .ok posts =>
    (posts.filter (fun p => dueBool env.now p && postPublishSuccess env p)).length

/-- A concrete poll for claim C5: one due Facebook post whose publish
succeeds but whose mark-as-published write to the sheet raises. -/
def envC5 : PollEnv :=
  { fetch := .ok [{ id := "p0", content := "hello",
                    scheduled_datetime := { wall := 0, off := some 0 },
                    platform := .facebook, sheet_row_index := some 5 }],
    fb := fun _ => { success := true, post_id := some "fb1" },
    ig := fun _ => { success := true, post_id := some "ig1" },
    markOk := fun _ => false,
    noteOk := fun _ => true,
    now := { wall := 0, off := some 0 } }

/-!  Theorems. -/

/-- C4: PublishPostUseCase.execute implements exactly the claimed
policy: Facebook posts succeed iff the Facebook publish succeeded;
Instagram posts with a usable image succeed iff the Instagram publish
succeeded; Instagram posts without a usable image fail with
skipped_instagram and no adapter call; Both posts succeed iff Facebook
succeeded and, when a usable image exists, Instagram succeeded too, with
Instagram skipped and not called when the image is unusable. -/
theorem c4_publish_policy (post : ScheduledPost) (fbResp igResp : PublishResult) :
    (PublishPostUseCase.execute post fbResp igResp).1.success =
      specPublishSuccess post fbResp igResp
  ∧ (PublishPostUseCase.execute post fbResp igResp).1.skipped_instagram =
      specSkippedInstagram post
  ∧ (PublishPostUseCase.execute post fbResp igResp).2.1 =
      specFacebookAttempted post
  ∧ (PublishPostUseCase.execute post fbResp igResp).2.2 =
      specInstagramAttempted post := by
  cases hp : post.platform <;> cases hc : post.can_publish_to_instagram <;>
    simp [PublishPostUseCase.execute, ScheduledPost.validate_for_instagram,
      publishPostCore, platformIn, specPublishSuccess, specSkippedInstagram,
      specFacebookAttempted, specInstagramAttempted, hp, hc]

/-- C8: is_past_or_now on aware values compares the two instants after
truncating both wall clocks to the minute; when the offsets are whole
minutes (as all modern zone offsets are) the result is true exactly when
the scheduled instant's minute is the current minute or an earlier one,
independently of seconds and microseconds. -/
theorem c8_is_past_or_now (now t : PyDt) (onow ot : Int)
    (hn : now.off = some onow) (ht : t.off = some ot) :
    is_past_or_now now t =
      .ok (decide ((truncMinute t).instant ≤ (truncMinute now).instant))
  ∧ (onow % 60 = 0 → ot % 60 = 0 →
      (is_past_or_now now t = .ok true ↔ minuteIndex t ≤ minuteIndex now)) := by
  constructor
  · simp [is_past_or_now, pyGe, truncMinute, PyDt.instant, hn, ht]
  · intro h60n h60t
    simp only [is_past_or_now, pyGe, truncMinute, hn, ht, Except.ok.injEq,
      decide_eq_true_eq, minuteIndex, PyDt.instant, Option.getD_some]
    omega

/-- C9: converting an aware datetime to the MongoDB storage timezone and
back preserves the UTC instant, hence utctimetuple, for any Damascus
offset rules. -/
theorem c9_mongodb_roundtrip (loc syOff : Int → Int) (d : PyDt) (o : Int)
    (h : d.off = some o) :
    utctimetuple (datetime_from_mongodb syOff (datetime_to_mongodb loc d)) =
      utctimetuple d := by
  simp [datetime_to_mongodb, datetime_from_mongodb, astimezone, utctimetuple,
    PyDt.instant, localizeSyria, h]

/-- Witness for C9 at a concrete aware datetime and concrete rules. -/
theorem c9_mongodb_roundtrip_witness :
    utctimetuple (datetime_from_mongodb (fun _ => 7200)
      (datetime_to_mongodb (fun _ => 7200) { wall := 123456789, off := some 10800 })) =
      utctimetuple { wall := 123456789, off := some 10800 } :=
  c9_mongodb_roundtrip (fun _ => 7200) (fun _ => 7200) _ 10800 rfl

/-- Witness for C8 at concrete aware datetimes: a scheduled instant in
the same minute as now with a later second is still past-or-now. -/
theorem c8_is_past_or_now_witness :
    is_past_or_now { wall := 60000000, off := some 0 }
      { wall := 119000000, off := some 0 } = .ok true := by
  have h := c8_is_past_or_now { wall := 60000000, off := some 0 }
    { wall := 119000000, off := some 0 } 0 0 rfl rfl
  exact (h.2 rfl rfl).mpr (by decide)

/-- A bind of Except values never succeeds when no continuation value
does. -/
lemma pyIsOk_bind_false {ε α β : Type} (x : Except ε α) (f : α → Except ε β)
    (h : ∀ a, pyIsOk (f a) = false) : pyIsOk (x >>= f) = false := by
  cases x with
  | error e => rfl
  | ok a => exact h a

/-- An error of a bind of Except values comes from the first part or from
the continuation. -/
lemma except_err_pred {ε α β : Type} {P : ε → Prop} (x : Except ε α)
    (f : α → Except ε β) (hx : ∀ e, x = .error e → P e)
    (hf : ∀ a e, f a = .error e → P e) :
    ∀ e, (x >>= f) = .error e → P e := by
  cases x with
  | error e0 =>
    intro e he
    have h2 : (Except.error e0 : Except ε β) = .error e := he
    injection h2 with h3
    exact h3 ▸ hx e0 rfl
  | ok a => exact hf a

/-- dictItem only raises the KeyError of its key. -/
lemma dictItem_err (doc : Doc) (k : String) :
    ∀ e, dictItem doc k = .error e → e = .keyError k := by
  unfold dictItem
  cases docGet doc k <;> simp

/-- dtFieldFromMongo only raises its fixed TypeError. -/
lemma dtFieldFromMongo_err (syOff : Int → Int) (ov : Option PyVal) :
    ∀ e, dtFieldFromMongo syOff ov = .error e →
      e = .typeError "expected a datetime" := by
  intro e he
  rcases ov with _ | v
  · exact Except.noConfusion he
  · cases v with
    | vDt d => exact Except.noConfusion he
    | vNone => exact Except.noConfusion he
    | vStr s =>
      by_cases hs : s.isEmpty
      · rw [show dtFieldFromMongo syOff (some (.vStr s)) = .ok .vNone from by
          simp [dtFieldFromMongo, pyTruthy, hs]] at he
        exact Except.noConfusion he
      · rw [show dtFieldFromMongo syOff (some (.vStr s)) =
            .error (.typeError "expected a datetime") from by
          simp [dtFieldFromMongo, pyTruthy, hs]] at he
        injection he with h3
        exact h3.symm
    | vInt n =>
      by_cases hn : n = 0
      · rw [show dtFieldFromMongo syOff (some (.vInt n)) = .ok .vNone from by
          simp [dtFieldFromMongo, pyTruthy, hn]] at he
        exact Except.noConfusion he
      · rw [show dtFieldFromMongo syOff (some (.vInt n)) =
            .error (.typeError "expected a datetime") from by
          simp [dtFieldFromMongo, pyTruthy, hn]] at he
        injection he with h3
        exact h3.symm
    | vBool b =>
      cases b
      · exact Except.noConfusion he
      · injection he with h3
        exact h3.symm

/-- The language conversion of the student document mapping only raises
its fixed ValueError. -/
lemma studentLang_err (o : Option PyVal) :
    ∀ e, studentDocLanguage o = .error e →
      e = .valueError "not a valid Language" := by
  intro e he
  rcases o with _ | v
  · exact Except.noConfusion he
  · cases v with
    | vStr s =>
      have h2 : Language.ofValue s = .error e := he
      unfold Language.ofValue at h2
      split at h2 <;> first
        | exact Except.noConfusion h2
        | (injection h2 with h3; exact h3.symm)
    | vInt n => injection he with h3; exact h3.symm
    | vDt d => injection he with h3; exact h3.symm
    | vBool b => injection he with h3; exact h3.symm
    | vNone => injection he with h3; exact h3.symm

/-- MongoDBStudentRepository._from_document never returns a Student: the
keyword check at the call always fails. -/
lemma student_from_document_not_ok (syOff : Int → Int) (doc : Doc) :
    pyIsOk (MongoDBStudentRepository.from_document syOff doc) = false := by
  unfold MongoDBStudentRepository.from_document
  apply pyIsOk_bind_false; intro v_id
  apply pyIsOk_bind_false; intro v_tid
  apply pyIsOk_bind_false; intro v_name
  apply pyIsOk_bind_false; intro lang
  apply pyIsOk_bind_false; intro v_ra
  rfl

/-- Every error MongoDBStudentRepository._from_document raises has a
message different from the capacity error string. -/
lemma student_from_document_err (syOff : Int → Int) (doc : Doc) :
    ∀ e, MongoDBStudentRepository.from_document syOff doc = .error e →
      e.str ≠ "Course is full" := by
  unfold MongoDBStudentRepository.from_document
  apply except_err_pred
  · intro e he
    rw [dictItem_err doc "_id" e he]
    decide
  intro v_id
  apply except_err_pred
  · intro e he
    rw [dictItem_err doc "telegram_id" e he]
    decide
  intro v_tid
  apply except_err_pred
  · intro e he
    rw [dictItem_err doc "name" e he]
    decide
  intro v_name
  apply except_err_pred
  · intro e he
    rw [studentLang_err (docGet doc "language") e he]
    decide
  intro lang
  apply except_err_pred
  · intro e he
    rw [dtFieldFromMongo_err _ _ e he]
    decide
  intro v_ra
  intro e he
  rw [show studentFromDocumentKwargs.filter
      (fun k => !(Student.ctorParams.contains k)) = ["name", "phone"] from by decide] at he
  simp only [Except.error.injEq] at he
  rw [← he]
  decide

/-- The wired student lookup never produces a Student entity. -/
lemma student_get_not_some (syOff : Int → Int) (docs : List Doc) (tid : Int) :
    ∀ s, MongoDBStudentRepository.get_by_telegram_id syOff docs tid ≠ .ok (some s) := by
  intro s hcontra
  unfold MongoDBStudentRepository.get_by_telegram_id at hcontra
  cases h : findDocBy docs "telegram_id" (.vInt tid) with
  | none =>
    rw [h] at hcontra
    have h2 : (Except.ok (ε := PyErr) (none : Option Student)) = .ok (some s) := hcontra
    exact Option.noConfusion (Except.ok.inj h2)
  | some d =>
    rw [h] at hcontra
    have h2 : Except.map some (MongoDBStudentRepository.from_document syOff d) =
        .ok (some s) := hcontra
    have hok : pyIsOk (MongoDBStudentRepository.from_document syOff d) = true := by
      cases hfd : MongoDBStudentRepository.from_document syOff d with
      | ok a => rfl
      | error e =>
        rw [hfd] at h2
        exact Except.noConfusion h2
    rw [student_from_document_not_ok syOff d] at hok
    exact Bool.false_ne_true hok

/-- Errors of the wired student lookup never carry the capacity error
message. -/
lemma student_get_err (syOff : Int → Int) (docs : List Doc) (tid : Int) :
    ∀ e, MongoDBStudentRepository.get_by_telegram_id syOff docs tid = .error e →
      e.str ≠ "Course is full" := by
  intro e he
  unfold MongoDBStudentRepository.get_by_telegram_id at he
  cases h : findDocBy docs "telegram_id" (.vInt tid) with
  | none =>
    rw [h] at he
    exact Except.noConfusion he
  | some d =>
    rw [h] at he
    have h2 : Except.map some (MongoDBStudentRepository.from_document syOff d) =
        .error e := he
    cases hfd : MongoDBStudentRepository.from_document syOff d with
    | ok a =>
      rw [hfd] at h2
      exact Except.noConfusion h2
    | error e0 =>
      rw [hfd] at h2
      have h3 : (Except.error (α := Option Student) e0) = .error e := h2
      injection h3 with h4
      exact h4 ▸ student_from_document_err syOff d e0 hfd

/-- MongoDBRegistrationRepository._to_document always fails at the
confirmed_at attribute read, before any document exists. -/
lemma registration_to_document_err (loc : Int → Int) (r : Registration) :
    MongoDBRegistrationRepository.to_document loc r =
      .error (.attributeError "Registration object has no attribute confirmed_at") := by
  cases hra : r.registered_at <;>
    simp [MongoDBRegistrationRepository.to_document, Registration.pyGetAttr,
      dtFieldToMongo, pyTruthy, hra, Bind.bind, Except.bind]

/-- MongoDBRegistrationRepository._from_document never returns a
Registration: the keyword check at the call always fails. -/
lemma registration_from_document_not_ok (syOff : Int → Int) (doc : Doc) :
    pyIsOk (MongoDBRegistrationRepository.from_document syOff doc) = false := by
  unfold MongoDBRegistrationRepository.from_document
  apply pyIsOk_bind_false; intro v_id
  apply pyIsOk_bind_false; intro v_sid
  apply pyIsOk_bind_false; intro v_cid
  apply pyIsOk_bind_false; intro v_statusRaw
  apply pyIsOk_bind_false; intro status
  apply pyIsOk_bind_false; intro v_ra
  apply pyIsOk_bind_false; intro v_ca
  rfl

/-- C2: the registration document mapping is inconsistent with the
Registration dataclass: building a document reads the missing
confirmed_at attribute, so every save raises before writing; the
constructor call of the read direction passes the unknown confirmed_at
keyword, so every get that finds a document raises; the document keys
carry no payment_status, approved_by or notes; and no registration
round-trips through save followed by get_by_id. -/
theorem c2_registration_repo_broken :
    (∀ (loc : Int → Int) (r : Registration),
      MongoDBRegistrationRepository.to_document loc r =
        .error (.attributeError "Registration object has no attribute confirmed_at"))
  ∧ (∀ (loc : Int → Int) (docs : List Doc) (r : Registration),
      MongoDBRegistrationRepository.save loc docs r =
        .error (.attributeError "Registration object has no attribute confirmed_at"))
  ∧ registrationFromDocumentKwargs.filter
      (fun k => !(Registration.ctorParams.contains k)) = ["confirmed_at"]
  ∧ (∀ (syOff : Int → Int) (doc : Doc),
      pyIsOk (MongoDBRegistrationRepository.from_document syOff doc) = false)
  ∧ (∀ (syOff : Int → Int) (docs : List Doc) (rid : String) (d : Doc),
      findDocBy docs "_id" (.vStr rid) = some d →
        pyIsOk (MongoDBRegistrationRepository.get_by_id syOff docs rid) = false)
  ∧ ("payment_status" ∉ registrationDocumentKeys ∧
      "approved_by" ∉ registrationDocumentKeys ∧
      "notes" ∉ registrationDocumentKeys)
  ∧ (∀ (loc syOff : Int → Int) (docs : List Doc) (r : Registration),
      pyIsOk ((MongoDBRegistrationRepository.save loc docs r).bind
        (fun docs2 => MongoDBRegistrationRepository.get_by_id syOff docs2 r.id)) =
          false) := by
  have hsave : ∀ (loc : Int → Int) (docs : List Doc) (r : Registration),
      MongoDBRegistrationRepository.save loc docs r =
        .error (.attributeError "Registration object has no attribute confirmed_at") := by
    intro loc docs r
    unfold MongoDBRegistrationRepository.save
    rw [show (MongoDBRegistrationRepository.to_document loc r >>= fun d =>
        Except.ok (upsertDocById docs (.vStr r.id) d)) =
        ((MongoDBRegistrationRepository.to_document loc r).bind fun d =>
          Except.ok (upsertDocById docs (.vStr r.id) d)) from rfl]
    rw [registration_to_document_err loc r]
    rfl
  refine ⟨registration_to_document_err, hsave, by decide, ?_, ?_, by decide, ?_⟩
  · exact registration_from_document_not_ok
  · intro syOff docs rid d hfind
    unfold MongoDBRegistrationRepository.get_by_id
    rw [hfind]
    show pyIsOk (Except.map some (MongoDBRegistrationRepository.from_document syOff d)) =
      false
    cases hfd : MongoDBRegistrationRepository.from_document syOff d with
    | ok a =>
      have := registration_from_document_not_ok syOff d
      rw [hfd] at this
      exact absurd this (by simp [pyIsOk])
    | error e => rfl
  · intro loc syOff docs r
    rw [hsave loc docs r]
    rfl

/-- Witness for C2 discharging the found-document hypothesis at a
concrete store holding one registration document. -/
theorem c2_registration_repo_broken_witness :
    pyIsOk (MongoDBRegistrationRepository.get_by_id (fun _ => 0)
      [[("_id", .vStr "r1"), ("student_id", .vStr "s1")]] "r1") = false :=
  c2_registration_repo_broken.2.2.2.2.1 (fun _ => 0)
    [[("_id", .vStr "r1"), ("student_id", .vStr "s1")]] "r1"
    [("_id", .vStr "r1"), ("student_id", .vStr "s1")] (by decide)

/-- C7: RegisterStudentUseCase.execute calls Student.create without its
required gender, age, residence and education_level parameters, so for a
telegram id without a Student record it raises TypeError before the
course, duplicate or capacity steps; with an existing Student record the
create call is never reached. -/
theorem c7_register_student_type_error :
    missingRequired registerStudentCreateKwargs =
      ["gender", "age", "residence", "education_level"]
  ∧ (∀ (st : St) (tid : Int) (name course_id : String) (phone email : Option String)
      (now : PyDt) (newRegId : String),
      getStudentByTelegram st tid = none →
        RegisterStudentUseCase.execute st tid name course_id phone email now newRegId =
          ([.getStudent, .studentCreateAttempt],
           .error (.typeError (missingArgsMsg
             (missingRequired registerStudentCreateKwargs)))))
  ∧ (∀ (st : St) (tid : Int) (name course_id : String) (phone email : Option String)
      (now : PyDt) (newRegId : String) (s : Student),
      getStudentByTelegram st tid = some s →
        RepoOp.studentCreateAttempt ∉
          (RegisterStudentUseCase.execute st tid name course_id phone email now
            newRegId).1) := by
  refine ⟨by decide, ?_, ?_⟩
  · intro st tid name course_id phone email now newRegId h
    simp [RegisterStudentUseCase.execute, h]
  · intro st tid name course_id phone email now newRegId s h
    simp only [RegisterStudentUseCase.execute, h]
    repeat' split
    all_goals simp

/-- Witness for C7: a concrete empty store (no student) and a concrete
store with a student, discharging both hypotheses. -/
theorem c7_register_student_type_error_witness :
    RegisterStudentUseCase.execute
      { students := [], registrations := [], courses := [], payments := [] }
      1 "Ali" "c1" none none { wall := 0, off := some 0 } "r1" =
      ([.getStudent, .studentCreateAttempt],
       .error (.typeError (missingArgsMsg (missingRequired registerStudentCreateKwargs))))
  ∧ RepoOp.studentCreateAttempt ∉
      (RegisterStudentUseCase.execute
        { students := [{ id := "s1", telegram_id := 1, full_name := "Ali",
                         phone_number := "09", gender := .male, age := 20,
                         residence := "Damascus", education_level := .other }],
          registrations := [], courses := [], payments := [] }
        1 "Ali" "c1" none none { wall := 0, off := some 0 } "r1").1 :=
  ⟨c7_register_student_type_error.2.1
      { students := [], registrations := [], courses := [], payments := [] }
      1 "Ali" "c1" none none { wall := 0, off := some 0 } "r1" rfl,
   c7_register_student_type_error.2.2
      { students := [{ id := "s1", telegram_id := 1, full_name := "Ali",
                       phone_number := "09", gender := .male, age := 20,
                       residence := "Damascus", education_level := .other }],
        registrations := [], courses := [], payments := [] }
      1 "Ali" "c1" none none { wall := 0, off := some 0 } "r1"
      { id := "s1", telegram_id := 1, full_name := "Ali",
        phone_number := "09", gender := .male, age := 20,
        residence := "Damascus", education_level := .other } (by decide)⟩

/-- C1: the full-course rejection is unreachable in the wired code: the
MongoDB registration repository's count_by_course raises AttributeError
CONFIRMED on every call, and the wired RequestRegistrationUseCase never
returns success and never returns the error Course is full, so the
claimed scenario (student A registers successfully, student B is told
the course is full) cannot happen. -/
theorem c1_course_full_unreachable :
    (∀ (docs : List Doc) (course_id : String),
      MongoDBRegistrationRepository.count_by_course docs course_id =
        .error (.attributeError "CONFIRMED"))
  ∧ (∀ (loc syOff : Int → Int) (st : MongoSt) (tid : Int)
      (full_name phone_number course_id : String) (now : PyDt) (newRegId : String),
      (requestRegistrationMongo loc syOff st tid full_name phone_number course_id
        now newRegId).1.success = false
    ∧ (requestRegistrationMongo loc syOff st tid full_name phone_number course_id
        now newRegId).1.error ≠ some "Course is full") := by
  constructor
  · intro docs course_id
    rfl
  · intro loc syOff st tid full_name phone_number course_id now newRegId
    rcases hfc : findCourse st.courses course_id with _ | course
    · simp [requestRegistrationMongo, hfc]
    · rcases hg : MongoDBStudentRepository.get_by_telegram_id syOff st.studentDocs tid
        with e | _ | s0
      · have hne := student_get_err syOff st.studentDocs tid e hg
        simp [requestRegistrationMongo, hfc, hg, hne]
      · simp only [requestRegistrationMongo, hfc, hg, ne_eq]
        refine ⟨trivial, by decide⟩
      · exact absurd hg (student_get_not_some syOff st.studentDocs tid s0)

/-- Membership after an upsert comes from the old list or is the new
element. -/
lemma mem_pyUpsert {α : Type} (key : α → String) (l : List α) (r x : α)
    (h : x ∈ pyUpsert key l r) : x ∈ l ∨ x = r := by
  induction l with
  | nil => simpa [pyUpsert] using h
  | cons a as ih =>
    unfold pyUpsert at h
    by_cases hk : (key a == key r) = true
    · rw [if_pos hk] at h
      rcases List.mem_cons.mp h with h1 | h1
      · right; exact h1
      · left; exact List.mem_cons_of_mem a h1
    · rw [if_neg hk] at h
      rcases List.mem_cons.mp h with h1 | h1
      · left; exact h1 ▸ List.mem_cons_self a as
      · rcases ih h1 with h2 | h2
        · left; exact List.mem_cons_of_mem a h2
        · right; exact h2

/-- An upsert with a fresh key appends. -/
lemma pyUpsert_of_fresh {α : Type} (key : α → String) (l : List α) (r : α)
    (h : ∀ x ∈ l, key x ≠ key r) : pyUpsert key l r = l ++ [r] := by
  induction l with
  | nil => rfl
  | cons a as ih =>
    have hk : (key a == key r) = false :=
      beq_eq_false_iff_ne.mpr (h a (List.mem_cons_self a as))
    unfold pyUpsert
    rw [hk]
    simp only [Bool.false_eq_true, if_false, List.cons_append, List.cons.injEq,
      true_and]
    exact ih (fun x hx => h x (List.mem_cons_of_mem a hx))

/-- After upserting a registration whose id is the one searched for, the
search finds the new version, provided the old list contained it. -/
lemma find_pyUpsert_id (regs : List Registration) (r reg : Registration)
    (rid : String) (hid : r.id = rid)
    (h : regs.find? (fun x => x.id == rid) = some reg) :
    (pyUpsert Registration.id regs r).find? (fun x => x.id == rid) = some r := by
  induction regs with
  | nil => simp at h
  | cons a as ih =>
    by_cases ha : (a.id == rid) = true
    · have hkey : (Registration.id a == Registration.id r) = true := by
        show (a.id == r.id) = true
        rw [hid]
        exact ha
      have hr : (r.id == rid) = true := by
        rw [hid]
        exact beq_self_eq_true rid
      unfold pyUpsert
      rw [if_pos hkey]
      simp [List.find?, hr]
    · have hkey : (Registration.id a == Registration.id r) = false := by
        show (a.id == r.id) = false
        rw [hid]
        exact Bool.eq_false_iff.mpr (fun hc => ha hc)
      have ha2 : (a.id == rid) = false :=
        Bool.eq_false_iff.mpr (fun hc => ha hc)
      unfold pyUpsert
      rw [if_neg (by rw [hkey]; exact Bool.false_ne_true)]
      simp only [List.find?, ha2] at h ⊢
      exact ih h

/-- Upserting a registration for a pair that no stored registration has
preserves pair uniqueness. -/
lemma pairUnique_pyUpsert (regs : List Registration) (r : Registration)
    (hdup : regs.find? (fun x =>
      x.student_id == r.student_id && x.course_id == r.course_id) = none)
    (h : PairUnique regs) : PairUnique (pyUpsert Registration.id regs r) := by
  have hall : ∀ x ∈ regs,
      ¬(x.student_id = r.student_id ∧ x.course_id = r.course_id) := by
    intro x hx hcon
    have h2 := List.find?_eq_none.mp hdup x hx
    apply h2
    simp [hcon.1, hcon.2]
  clear hdup
  induction regs with
  | nil => exact List.pairwise_singleton _ r
  | cons a as ih =>
    rcases List.pairwise_cons.mp h with ⟨ha, htail⟩
    unfold pyUpsert
    by_cases hk : (Registration.id a == Registration.id r) = true
    · rw [if_pos hk]
      refine List.pairwise_cons.mpr ⟨?_, htail⟩
      intro y hy hcon
      exact hall y (List.mem_cons_of_mem a hy) ⟨hcon.1.symm, hcon.2.symm⟩
    · rw [if_neg hk]
      refine List.pairwise_cons.mpr
        ⟨?_, ih htail (fun x hx => hall x (List.mem_cons_of_mem a hx))⟩
      intro y hy
      rcases mem_pyUpsert _ as r y hy with h1 | h1
      · exact ha y h1
      · subst h1
        intro hcon
        exact hall a (List.mem_cons_self a as) ⟨hcon.1, hcon.2⟩

/-- The tail of the registration request preserves pair uniqueness. -/
lemma pairUnique_requestRegistrationTail (st : St) (student : Student)
    (course : Course) (cid : String) (now : PyDt) (rid : String)
    (hPU : PairUnique st.registrations) :
    PairUnique ((requestRegistrationTail st student course cid now rid).2.registrations) := by
  unfold requestRegistrationTail
  cases hdup : getRegByStudentAndCourse st student.id cid with
  | some ex => exact hPU
  | none =>
    by_cases hcap : ((countByCourse st cid : Int) ≥ course.max_students)
    · rw [if_pos hcap]
      exact hPU
    · rw [if_neg hcap]
      exact pairUnique_pyUpsert st.registrations
        (Registration.create rid student.id cid now) hdup hPU

/-- C6: the (student_id, course_id) pair is kept unique: a second request
for an existing pair is rejected with the already-registered error by
both registration use cases and stores nothing, and both use cases map a
pair-unique registration store to a pair-unique store. -/
theorem c6_pair_unique :
    (∀ (st : St) (tid : Int) (fn pn cid : String) (now : PyDt) (rid : String)
      (course : Course) (s : Student) (ex : Registration),
      findCourse st.courses cid = some course →
      getStudentByTelegram st tid = some s →
      st.registrations.find? (fun r => r.student_id == s.id && r.course_id == cid) =
        some ex →
        (RequestRegistrationUseCase.execute st tid fn pn cid now rid).1.success = false
      ∧ (RequestRegistrationUseCase.execute st tid fn pn cid now rid).1.error =
          some "Already registered for this course"
      ∧ (RequestRegistrationUseCase.execute st tid fn pn cid now rid).2.registrations =
          st.registrations)
  ∧ (∀ (st : St) (tid : Int) (name cid : String) (phone email : Option String)
      (now : PyDt) (rid : String) (course : Course) (s : Student) (ex : Registration),
      getStudentByTelegram st tid = some s →
      findCourse st.courses cid = some course →
      (course.status = .published ∨ course.status = .ongoing) →
      getRegByStudentAndCourse st s.id cid = some ex →
        (RegisterStudentUseCase.execute st tid name cid phone email now rid).2 =
          .ok ({ success := false,
                 error := some "Already registered for this course" }, st))
  ∧ (∀ (st : St) (tid : Int) (fn pn cid : String) (now : PyDt) (rid : String),
      PairUnique st.registrations →
        PairUnique
          ((RequestRegistrationUseCase.execute st tid fn pn cid now rid).2.registrations))
  ∧ (∀ (st : St) (tid : Int) (name cid : String) (phone email : Option String)
      (now : PyDt) (rid : String),
      PairUnique st.registrations →
        PairUnique (registerStudentFinalRegs st tid name cid phone email now rid)) := by
  refine ⟨?_, ?_, ?_, ?_⟩
  · intro st tid fn pn cid now rid course s ex h1 h2 h3
    simp [RequestRegistrationUseCase.execute, requestRegistrationTail,
      getRegByStudentAndCourse, h1, h2, h3]
  · intro st tid name cid phone email now rid course s ex h1 h2 h3 h4
    rcases h3 with h3 | h3 <;>
      simp [RegisterStudentUseCase.execute, h1, h2, h3, h4]
  · intro st tid fn pn cid now rid hPU
    rcases hfc : findCourse st.courses cid with _ | course
    · simpa [RequestRegistrationUseCase.execute, hfc] using hPU
    · rcases hstu : getStudentByTelegram st tid with _ | s
      · simpa [RequestRegistrationUseCase.execute, hfc, hstu] using hPU
      · simp only [RequestRegistrationUseCase.execute, hfc, hstu]
        exact pairUnique_requestRegistrationTail _ _ _ _ _ _ hPU
  · intro st tid name cid phone email now rid hPU
    unfold registerStudentFinalRegs
    rcases hstu : getStudentByTelegram st tid with _ | s
    · simpa [RegisterStudentUseCase.execute, hstu] using hPU
    · rcases hfc : findCourse st.courses cid with _ | course
      · simpa [RegisterStudentUseCase.execute, hstu, hfc] using hPU
      · by_cases hava :
          (!(course.status == CourseStatus.published ||
             course.status == CourseStatus.ongoing)) = true
        · simpa [RegisterStudentUseCase.execute, hstu, hfc, hava] using hPU
        · rcases hdup : getRegByStudentAndCourse st s.id cid with _ | ex
          · by_cases hcap : ((countByCourse st cid : Int) ≥ course.max_students)
            · simpa [RegisterStudentUseCase.execute, hstu, hfc, hava, hdup, hcap]
                using hPU
            · have hfin : registerStudentFinalRegs st tid name cid phone email now rid =
                  pyUpsert Registration.id st.registrations
                    (Registration.create rid s.id cid now) := by
                simp [registerStudentFinalRegs, RegisterStudentUseCase.execute,
                  hstu, hfc, hava, hdup, hcap]
              unfold registerStudentFinalRegs at hfin
              rw [hfin]
              exact pairUnique_pyUpsert st.registrations
                (Registration.create rid s.id cid now) hdup hPU
          · simpa [RegisterStudentUseCase.execute, hstu, hfc, hava, hdup] using hPU

/-- Witness for C6 at a concrete store with one existing registration,
discharging every hypothesis. -/
theorem c6_pair_unique_witness :
    (RequestRegistrationUseCase.execute
      { students := [{ id := "s1", telegram_id := 1, full_name := "Ali",
                       phone_number := "09", gender := .male, age := 20,
                       residence := "Damascus", education_level := .other }],
        registrations := [{ id := "r1", student_id := "s1", course_id := "c1" }],
        courses := [{ id := "c1", name := "Py", description := "d",
                      instructor := "i", start_date := { wall := 0, off := some 0 },
                      end_date := { wall := 1, off := some 0 }, price := 100,
                      max_students := 10, status := .published }],
        payments := [] } 1 "Ali" "09" "c1" { wall := 0, off := some 0 } "r2").1.error =
      some "Already registered for this course"
  ∧ PairUnique
      ((RequestRegistrationUseCase.execute
        { students := [{ id := "s1", telegram_id := 1, full_name := "Ali",
                         phone_number := "09", gender := .male, age := 20,
                         residence := "Damascus", education_level := .other }],
          registrations := [{ id := "r1", student_id := "s1", course_id := "c1" }],
          courses := [{ id := "c1", name := "Py", description := "d",
                        instructor := "i", start_date := { wall := 0, off := some 0 },
                        end_date := { wall := 1, off := some 0 }, price := 100,
                        max_students := 10, status := .published }],
          payments := [] } 1 "Ali" "09" "c1" { wall := 0, off := some 0 } "r2").2.registrations) := by
  constructor
  · exact (c6_pair_unique.1 _ 1 "Ali" "09" "c1" { wall := 0, off := some 0 } "r2"
      { id := "c1", name := "Py", description := "d", instructor := "i",
        start_date := { wall := 0, off := some 0 },
        end_date := { wall := 1, off := some 0 }, price := 100,
        max_students := 10, status := .published }
      { id := "s1", telegram_id := 1, full_name := "Ali", phone_number := "09",
        gender := .male, age := 20, residence := "Damascus",
        education_level := .other }
      { id := "r1", student_id := "s1", course_id := "c1" }
      (by decide) (by decide) (by decide)).2.1
  · exact c6_pair_unique.2.2.1 _ 1 "Ali" "09" "c1" { wall := 0, off := some 0 } "r2"
      (List.pairwise_singleton _ _)

/-- C3: adding a payment to an approved registration succeeds, keeps the
existing payment records (append-only), reports the total as the sum of
the registration's records, and sets the stored payment status to PAID
when the total reaches the course price, to PARTIAL when it is positive
but below the price, and leaves it UNPAID when the total is zero (and
below the price). -/
theorem c3_add_payment (st : St) (rid : String) (amount : Rat)
    (method : PaymentMethod) (admin : Int) (notes : Option String) (now : PyDt)
    (pid : String) (reg : Registration) (course : Course)
    (hreg : getRegistration st rid = some reg)
    (happ : reg.status = RegistrationStatus.approved)
    (hcourse : findCourse st.courses reg.course_id = some course)
    (hfresh : ∀ p ∈ st.payments, p.id ≠ pid) :
    (AddPaymentUseCase.execute st rid amount method admin notes now pid).1.success = true
  ∧ (AddPaymentUseCase.execute st rid amount method admin notes now pid).1.total_paid =
      get_total_paid
        ((AddPaymentUseCase.execute st rid amount method admin notes now pid).2.payments)
        rid
  ∧ (∀ p ∈ st.payments,
      p ∈ (AddPaymentUseCase.execute st rid amount method admin notes now pid).2.payments)
  ∧ (∃ reg2,
      getRegistration
        ((AddPaymentUseCase.execute st rid amount method admin notes now pid).2) rid =
          some reg2
    ∧ ((AddPaymentUseCase.execute st rid amount method admin notes now pid).1.total_paid ≥
          course.price → reg2.payment_status = .paid)
    ∧ (0 < (AddPaymentUseCase.execute st rid amount method admin notes now pid).1.total_paid
        ∧ (AddPaymentUseCase.execute st rid amount method admin notes now pid).1.total_paid <
            course.price → reg2.payment_status = .part)
    ∧ ((AddPaymentUseCase.execute st rid amount method admin notes now pid).1.total_paid = 0
        ∧ (AddPaymentUseCase.execute st rid amount method admin notes now pid).1.total_paid <
            course.price
        ∧ reg.payment_status = .unpaid → reg2.payment_status = .unpaid)) := by
  have hreg2 := hreg
  unfold getRegistration at hreg2
  have hid : reg.id = rid := by
    have h3 := List.find?_some hreg2
    simpa using h3
  have happ2 : (reg.status == RegistrationStatus.approved) = true := by
    rw [happ]
    decide
  unfold AddPaymentUseCase.execute
  simp only [getRegistration, hreg2, happ2, Bool.not_true, Bool.false_eq_true,
    if_false, hcourse]
  refine ⟨trivial, trivial, ?_, ?_⟩
  · intro p hp
    rw [pyUpsert_of_fresh PaymentRecord.id st.payments _ (fun x hx => hfresh x hx)]
    exact List.mem_append_left _ hp
  · by_cases hp1 : get_total_paid (pyUpsert PaymentRecord.id st.payments
        (PaymentRecord.create pid rid amount method admin now notes)) rid ≥ course.price
    · simp only [if_pos hp1]
      refine ⟨{ reg with payment_status := .paid }, ?_, fun _ => rfl, ?_, ?_⟩
      · exact find_pyUpsert_id st.registrations _ reg rid hid hreg2
      · rintro ⟨ha, hb⟩
        exact absurd hp1 (not_le.mpr hb)
      · rintro ⟨ha, hb, hc⟩
        exact absurd hp1 (not_le.mpr hb)
    · simp only [if_neg hp1]
      by_cases hp2 : get_total_paid (pyUpsert PaymentRecord.id st.payments
          (PaymentRecord.create pid rid amount method admin now notes)) rid > 0
      · simp only [if_pos hp2]
        refine ⟨{ reg with payment_status := .part }, ?_, ?_, fun _ => rfl, ?_⟩
        · exact find_pyUpsert_id st.registrations _ reg rid hid hreg2
        · intro hge
          exact absurd hge hp1
        · rintro ⟨ha, hb, hc⟩
          rw [ha] at hp2
          exact absurd hp2 (lt_irrefl 0)
      · simp only [if_neg hp2]
        refine ⟨reg, ?_, ?_, ?_, ?_⟩
        · exact find_pyUpsert_id st.registrations reg reg rid hid hreg2
        · intro hge
          exact absurd hge hp1
        · rintro ⟨ha, hb⟩
          exact absurd ha hp2
        · rintro ⟨ha, hb, hc⟩
          exact hc

/-- Witness for C3 at a concrete store with one approved registration and
no prior payments, discharging every hypothesis. -/
theorem c3_add_payment_witness :
    (AddPaymentUseCase.execute
      { students := [],
        registrations := [{ id := "r1", student_id := "s1", course_id := "c1",
                            status := .approved }],
        courses := [{ id := "c1", name := "Py", description := "d",
                      instructor := "i", start_date := { wall := 0, off := some 0 },
                      end_date := { wall := 1, off := some 0 }, price := 100,
                      max_students := 10, status := .published }],
        payments := [] } "r1" 40 .cash 7 none { wall := 0, off := some 0 } "p1").1.success =
      true := by
  exact (c3_add_payment
    { students := [],
      registrations := [{ id := "r1", student_id := "s1", course_id := "c1",
                          status := .approved }],
      courses := [{ id := "c1", name := "Py", description := "d",
                    instructor := "i", start_date := { wall := 0, off := some 0 },
                    end_date := { wall := 1, off := some 0 }, price := 100,
                    max_students := 10, status := .published }],
      payments := [] } "r1" 40 .cash 7 none { wall := 0, off := some 0 } "p1"
    { id := "r1", student_id := "s1", course_id := "c1", status := .approved }
    { id := "c1", name := "Py", description := "d", instructor := "i",
      start_date := { wall := 0, off := some 0 },
      end_date := { wall := 1, off := some 0 }, price := 100,
      max_students := 10, status := .published }
    (by decide) rfl (by decide) (by simp)).1

/-- On aware datetimes the due check returns the Boolean dueBool. -/
lemma is_past_or_now_aware (now : PyDt) (p : ScheduledPost) (onow op : Int)
    (hn : now.off = some onow) (hp : p.scheduled_datetime.off = some op) :
    is_past_or_now now p.scheduled_datetime = .ok (dueBool now p) := by
  unfold dueBool
  cases h : is_past_or_now now p.scheduled_datetime with
  | ok b => rfl
  | error e =>
    unfold is_past_or_now pyGe truncMinute at h
    rw [hn, hp] at h
    exact Except.noConfusion h

/-- The poll loop counts exactly the due posts whose publish succeeded
and whose sheet mark also succeeded, attempts every due post, and
reports every due post whose publish failed, independently per post. -/
lemma pollLoop_eq (env : PollEnv) (onow : Int) (hnow : env.now.off = some onow) :
    ∀ (posts : List ScheduledPost) (acc : PollTrace),
      (∀ p ∈ posts, p.scheduled_datetime.off ≠ none) →
      pollLoop env posts acc = .ok
        { count := acc.count + (posts.filter (fun p =>
            dueBool env.now p && postPublishSuccess env p &&
              env.markOk p.sheet_row_index)).length,
          attempts := acc.attempts ++
            (posts.filter (fun p => dueBool env.now p)).map (fun p => p.id),
          reports := acc.reports ++
            (posts.filter (fun p =>
              dueBool env.now p && !postPublishSuccess env p)).map (fun p =>
                "Failed to publish post: " ++ errorOrUnknown
                  (PublishPostUseCase.execute p (env.fb p) (env.ig p)).1.error) } := by
  intro posts
  induction posts with
  | nil =>
    intro acc hw
    simp [pollLoop]
  | cons p rest ih =>
    intro acc hw
    have hpoff : p.scheduled_datetime.off ≠ none :=
      hw p (List.mem_cons_self p rest)
    rcases hop : p.scheduled_datetime.off with _ | op
    · exact absurd hop hpoff
    have hdue := is_past_or_now_aware env.now p onow op hnow hop
    have hrest : ∀ q ∈ rest, q.scheduled_datetime.off ≠ none :=
      fun q hq => hw q (List.mem_cons_of_mem p hq)
    have hih := fun acc => ih acc hrest
    by_cases hd : dueBool env.now p = true
    · by_cases hs : (PublishPostUseCase.execute p (env.fb p) (env.ig p)).1.success = true
      · by_cases hm : env.markOk p.sheet_row_index = true
        · simp [pollLoop, hdue, hd, hs, hm, hih, List.filter_cons, postPublishSuccess]
          omega
        · simp [pollLoop, hdue, hd, hs, hm, hih, List.filter_cons, postPublishSuccess]
      · simp [pollLoop, hdue, hd, hs, hih, List.filter_cons, postPublishSuccess]
    · simp [pollLoop, hdue, hd, hih, List.filter_cons]

/-- C5: a fetch failure aborts the poll with a single report, no publish
attempt and a returned count of zero; otherwise every due post is handed
to the publish use case regardless of other posts' outcomes, each due
publish failure is reported, and the returned count equals the number of
due posts whose publish succeeded and whose sheet mark-as-published
write also succeeded. -/
theorem c5_poll_counts (env : PollEnv) (onow : Int) (hnow : env.now.off = some onow) :
    (∀ e, env.fetch = .error e →
      CheckAndPublishPostsUseCase.execute env = .ok
        { count := 0, attempts := [],
          reports := ["Failed to fetch posts from Google Sheets: " ++ e] })
  ∧ (∀ posts, env.fetch = .ok posts →
      (∀ p ∈ posts, p.scheduled_datetime.off ≠ none) →
      CheckAndPublishPostsUseCase.execute env = .ok
        { count := (posts.filter (fun p =>
            dueBool env.now p && postPublishSuccess env p &&
              env.markOk p.sheet_row_index)).length,
          attempts := (posts.filter (fun p => dueBool env.now p)).map (fun p => p.id),
          reports := (posts.filter (fun p =>
            dueBool env.now p && !postPublishSuccess env p)).map (fun p =>
              "Failed to publish post: " ++ errorOrUnknown
                (PublishPostUseCase.execute p (env.fb p) (env.ig p)).1.error) }) := by
  constructor
  · intro e he
    unfold CheckAndPublishPostsUseCase.execute
    rw [he]
  · intro posts hf hw
    simp only [CheckAndPublishPostsUseCase.execute, hf]
    rw [pollLoop_eq env onow hnow posts { count := 0, attempts := [], reports := [] } hw]
    simp

/-- Witness for C5 discharging both fetch hypotheses at concrete polls. -/
theorem c5_poll_counts_witness :
    CheckAndPublishPostsUseCase.execute
      { fetch := .error "boom", fb := fun _ => { success := true },
        ig := fun _ => { success := true }, markOk := fun _ => true,
        noteOk := fun _ => true, now := { wall := 0, off := some 0 } } = .ok
      { count := 0, attempts := [],
        reports := ["Failed to fetch posts from Google Sheets: " ++ "boom"] }
  ∧ CheckAndPublishPostsUseCase.execute envC5 = .ok
      { count := 0, attempts := ["p0"], reports := [] } := by
  constructor
  · exact (c5_poll_counts _ 0 rfl).1 "boom" rfl
  · have h := (c5_poll_counts envC5 0 rfl).2
      [{ id := "p0", content := "hello",
         scheduled_datetime := { wall := 0, off := some 0 },
         platform := .facebook, sheet_row_index := some 5 }] rfl
      (by intro p hp; simp at hp; rw [hp]; decide)
    rw [h]
    rfl

/-- C5 counterexample: in a poll with one due post whose publish succeeds
but whose mark-as-published write raises, the code returns 0 while the
number of posts successfully published in the poll is 1, so the returned
integer is not that number. -/
theorem c5_count_counterexample :
    (CheckAndPublishPostsUseCase.execute envC5).map (fun t => t.count) = .ok 0
  ∧ specSuccessfullyPublished envC5 = 1 := by
  constructor
  · rfl
  · rfl

/-- The strptime %H:%M matcher succeeds exactly on the shapes of the
amended time grammar. -/
lemma strptimeTime_isSome (t : List Char) :
    (strptimeTime t).isSome = shapeTime t := by
  have hcd : ((':') : Char).isDigit = false := by decide
  rcases t with _ | ⟨a, _ | ⟨b, _ | ⟨c, _ | ⟨d, _ | ⟨e, _ | ⟨f, rest⟩⟩⟩⟩⟩⟩
  · simp [strptimeTime, reHour, shapeTime]
  · by_cases ha : a.isDigit = true <;>
      simp_all [strptimeTime, reHour, shapeTime]
  · by_cases hbc : b = ':' <;>
      simp_all [strptimeTime, reHour, reMinute, shapeTime] <;>
      (try (split_ifs <;> (try simp_all))) <;>
      (try (split_ifs <;> (try simp_all))) <;>
      (try tauto)
  · by_cases hbc : b = ':' <;> by_cases hcc : c = ':' <;>
      simp_all [strptimeTime, reHour, reMinute, shapeTime] <;>
      (try (split_ifs <;> (try simp_all))) <;>
      (try (split_ifs <;> (try simp_all))) <;>
      (try tauto)
  · by_cases hbc : b = ':' <;> by_cases hcc : c = ':' <;>
      simp_all [strptimeTime, reHour, reMinute, shapeTime] <;>
      (try (split_ifs <;> (try simp_all))) <;>
      (try (split_ifs <;> (try simp_all))) <;>
      (try tauto)
  · by_cases hbc : b = ':' <;> by_cases hcc : c = ':' <;> by_cases hdc : d = ':' <;>
      simp_all [strptimeTime, reHour, reMinute, shapeTime] <;>
      (try (split_ifs <;> (try simp_all))) <;>
      (try (split_ifs <;> (try simp_all))) <;>
      (try tauto)
  · by_cases hbc : b = ':' <;> by_cases hcc : c = ':' <;>
      simp_all [strptimeTime, reHour, reMinute, shapeTime] <;>
      (try (split_ifs <;> (try simp_all))) <;>
      (try (split_ifs <;> (try simp_all))) <;>
      (try tauto)

/-- The strptime %m-%d tail matcher succeeds with a calendar-valid day
exactly on the month-day shapes of the amended date grammar. -/
lemma strptimeMD_shape (y : Nat) (u : List Char) :
    (match strptimeMD u with
     | none => false
     | some (m, d) => decide (d ≤ daysInMonth y m)) = shapeMD y u := by
  have hdd : (('-') : Char).isDigit = false := by decide
  have hsd : ((' ') : Char).isDigit = false := by decide
  rcases u with _ | ⟨a, _ | ⟨b, _ | ⟨c, _ | ⟨d, _ | ⟨e, _ | ⟨f, rest⟩⟩⟩⟩⟩⟩
  · simp [strptimeMD, reMonth, shapeMD]
  · by_cases ha : a.isDigit = true <;>
      simp_all [strptimeMD, reMonth, shapeMD] <;>
      (try (split_ifs <;> (try simp_all))) <;> (try tauto)
  · by_cases hb : b = '-' <;>
      simp_all [strptimeMD, reMonth, reDay, shapeMD] <;>
      (try (split_ifs <;> (try simp_all))) <;>
      (try (split_ifs <;> (try simp_all))) <;>
      (try tauto)
  · by_cases hb : b = '-' <;> by_cases hc : c = '-' <;>
      simp_all [strptimeMD, reMonth, reDay, shapeMD] <;>
      (try (split_ifs <;> (try simp_all))) <;>
      (try (split_ifs <;> (try simp_all))) <;>
      (try tauto)
  · by_cases hb : b = '-' <;> by_cases hc : c = '-' <;> by_cases hcs : c = ' ' <;>
      simp_all [strptimeMD, reMonth, reDay, shapeMD, dayPair, dayPairVal] <;>
      (try (split_ifs <;> (try simp_all))) <;>
      (try (split_ifs <;> (try simp_all))) <;>
      (try tauto) <;> (try omega)
  · by_cases hb : b = '-' <;> by_cases hc : c = '-' <;> by_cases hcs : c = ' ' <;>
      by_cases hds : d = ' ' <;>
      simp_all [strptimeMD, reMonth, reDay, shapeMD, dayPair, dayPairVal] <;>
      (try (split_ifs <;> (try simp_all))) <;>
      (try (split_ifs <;> (try simp_all))) <;>
      (try tauto) <;> (try omega)
  · by_cases hb : b = '-' <;> by_cases hc : c = '-' <;> by_cases hcs : c = ' ' <;>
      by_cases hds : d = ' ' <;>
      simp_all [strptimeMD, reMonth, reDay, shapeMD] <;>
      (try (split_ifs <;> (try simp_all))) <;>
      (try (split_ifs <;> (try simp_all))) <;>
      (try tauto)

/-- The strptime %Y-%m-%d matcher succeeds with a nonzero year and a
calendar-valid day exactly on the shapes of the amended date grammar. -/
lemma dateWrap_shape (t : List Char) :
    (match strptimeDate t with
     | none => false
     | some (y, m, d) => !(y == 0) && decide (d ≤ daysInMonth y m)) = shapeDate t := by
  rcases t with _ | ⟨x1, _ | ⟨x2, _ | ⟨x3, _ | ⟨x4, _ | ⟨x5, u⟩⟩⟩⟩⟩
  · simp [strptimeDate, reYear4, shapeDate]
  · simp [strptimeDate, reYear4, shapeDate]
  · simp [strptimeDate, reYear4, shapeDate]
  · simp [strptimeDate, reYear4, shapeDate]
  · simp_all [strptimeDate, reYear4, shapeDate] <;>
      (try (split_ifs <;> simp_all)) <;> (try (split <;> simp_all)) <;> (try tauto)
  · by_cases hd : (x1.isDigit && x2.isDigit && x3.isDigit && x4.isDigit) = true <;>
      by_cases h5 : x5 = '-'
    · obtain ⟨⟨⟨h1, h2⟩, h3⟩, h4⟩ :
        ((x1.isDigit = true ∧ x2.isDigit = true) ∧ x3.isDigit = true) ∧ x4.isDigit = true := by
        simpa [Bool.and_eq_true, and_assoc] using hd
      subst h5
      have hre : reYear4 (x1 :: x2 :: x3 :: x4 :: '-' :: u)
          = some (1000 * dv x1 + 100 * dv x2 + 10 * dv x3 + dv x4, '-' :: u) := by
        simp [reYear4, h1, h2, h3, h4]
      have hsh : shapeDate (x1 :: x2 :: x3 :: x4 :: '-' :: u)
          = (decide (1 ≤ 1000 * dv x1 + 100 * dv x2 + 10 * dv x3 + dv x4) &&
              shapeMD (1000 * dv x1 + 100 * dv x2 + 10 * dv x3 + dv x4) u) := by
        simp [shapeDate, h1, h2, h3, h4]
      have hmd := strptimeMD_shape (1000 * dv x1 + 100 * dv x2 + 10 * dv x3 + dv x4) u
      simp only [strptimeDate, hre, hsh, ← hmd]
      cases hu : strptimeMD u with
      | none => simp
      | some p =>
        rcases p with ⟨m, d⟩
        by_cases hy : (1000 * dv x1 + 100 * dv x2 + 10 * dv x3 + dv x4) = 0
        · simp [hy]
        · have hpos : 1 ≤ 1000 * dv x1 + 100 * dv x2 + 10 * dv x3 + dv x4 :=
            Nat.pos_of_ne_zero hy
          simp [hy, hpos]
    · simp_all [strptimeDate, reYear4, shapeDate] <;>
        (try (split <;> simp_all)) <;> (try (split_ifs <;> simp_all)) <;> (try tauto)
    · simp_all [strptimeDate, reYear4, shapeDate] <;>
        (try (split_ifs <;> simp_all)) <;> (try (split <;> simp_all)) <;> (try tauto)
    · simp_all [strptimeDate, reYear4, shapeDate] <;>
        (try (split_ifs <;> simp_all)) <;> (try (split <;> simp_all)) <;> (try tauto)

/-- parse_time succeeds exactly on the amended time grammar. -/
lemma parse_time_flex (s : String) : pyIsOk (parse_time s) = flexTime s := by
  unfold flexTime
  rw [← strptimeTime_isSome]
  unfold parse_time
  cases hu : strptimeTime (pyStripList s.data) with
  | none => simp [pyIsOk]
  | some p => rcases p with ⟨h, m⟩; simp [pyIsOk]

/-- parse_date succeeds exactly on the amended date grammar. -/
lemma parse_date_flex (s : String) : pyIsOk (parse_date s) = flexDate s := by
  unfold flexDate
  rw [← dateWrap_shape]
  unfold parse_date
  cases hu : strptimeDate (pyStripList s.data) with
  | none => simp [pyIsOk]
  | some p =>
    rcases p with ⟨y, m, d⟩
    by_cases h1 : (y == 0) = true <;> by_cases h2 : d ≤ daysInMonth y m
    · simp [pyIsOk, h1, h2]
    · simp [pyIsOk, h1, h2]
    · have h1f : (y == 0) = false := by simpa using h1
      simp [pyIsOk, h1f, h2]
    · have h1f : (y == 0) = false := by simpa using h1
      simp [pyIsOk, h1f, if_neg h2]
      omega

/-- C10: amended.  parse_time accepts exactly the strings that strip to a
one- or two-digit hour at most 23, a colon, and a one- or two-digit
minute at most 59, and parse_date accepts exactly the strings that strip
to a four-digit year at least 0001, a dash, a one- or two-digit month
1..12, a dash, and a one- or two-digit (optionally blank-padded) day
that exists in that month; every other string raises ValueError.  In
particular "15-01-2024" and "2:30 PM" raise ValueError. -/
theorem c10_parse_formats :
    (∀ s : String, pyIsOk (parse_time s) = flexTime s)
  ∧ (∀ s : String, pyIsOk (parse_date s) = flexDate s)
  ∧ parse_time "2:30 PM" = .error (.valueError "time data does not match format H:M")
  ∧ parse_date "15-01-2024" = .error (.valueError "time data does not match format Y-m-d")
  ∧ pyIsOk (parse_time "02:30") = true
  ∧ pyIsOk (parse_date "2024-01-15") = true :=
  ⟨parse_time_flex, parse_date_flex, rfl, rfl, rfl, rfl⟩

/-- The claim as frozen is too strict: parse_time also accepts times that
are not in two-digit HH:MM form, and parse_date also accepts dates that
are not in two-digit YYYY-MM-DD form. -/
theorem c10_strict_counterexample :
    parse_time "2:30" = .ok (2, 30)
  ∧ isStrictHHMM "2:30" = false
  ∧ parse_date "2024-1-5" = .ok (2024, 1, 5) :=
  ⟨rfl, rfl, rfl⟩

end TCM
